import Mathlib

/-!
# The Python plugin loader of libpeas

A shallow embedding of `loaders/python/peas-plugin-loader-python.c`.

* Interpreter objects, native types and plugin descriptors are pointers in the
  C code; here they are natural numbers standing for their identity.
* The private structure of the loader and the part of the interpreter and of
  the host object system the loader touches are the fields of `State`.
* What the interpreter and the host type system answer (the module
  dictionary, the subclass test, the import of a module, ...) is a `Runtime`,
  a record of functions the loader only consults.
* A dereference of a `NULL` pointer ends the run: functions that can reach one
  return `Except Fault`.
* The lock is followed by its hold depth and by the number of acquisitions and
  releases; the error indicator is a flag; calls that leave a visible mark are
  appended to `State.trace`.
* `PyErr_Print` ends the host process when the error it prints is
  `SystemExit`; the trace then holds `Event.process_exit`, and `exited` tells
  whether it does. What a definition returns for a run with that event is what
  the code would do if the process went on.
* The calls of the interpreter on `sys.path` can fail; whether they do is
  answered by the fields `py_string_fails`, `contains_raises` and
  `insert_fails` of `State`.
* `State.marker_seen` keeps the value of `idle_gc` at each pass of the cyclic
  collector, which is what code run by the collector can observe.
* The loop of `run_gc_protected` has no bound in the C code; here it takes the
  number of passes it may make and returns `none` when they do not suffice.
* What is fixed when the loader is built (`PY_VERSION_HEX`, `PEAS_PYEXECDIR`)
  and what the interpreter answers while the loader starts is a `Startup`.
-/

namespace Peas

/-- Identity of an interpreter object (a `PyObject *`). -/
abbrev PyObject := Nat

/-- Identity of a native type (a `GType`). -/
abbrev GType := Nat

/-- Identity of a plugin descriptor (a `PeasPluginInfo *`); the registry hashes
and compares descriptors by address (`g_direct_hash`, `g_direct_equal`). -/
abbrev PeasPluginInfo := Nat

/-- One construction parameter (a `GParameter`): a property name and a value. -/
abbrev GParameter := String × Nat

/-- The interpreter's `None` singleton. -/
def Py_None : PyObject := 0

/-- The invalid native type, `G_TYPE_MAKE_FUNDAMENTAL (0)`. -/
def G_TYPE_INVALID : GType := 0

/-- The ways a run of the loader can end without returning. -/
inductive Fault where
  | null_deref
  deriving DecidableEq, Repr

/-- What the loader asks of the interpreter and of the host that leaves a
visible mark: the calls recorded in `State.trace`, oldest first. -/
inductive Event where
  | imported (name : String)
  | call_method (recv : Option PyObject) (name : String)
  | err_print
  | warning (msg : String)
  | gc_collect (found : Nat)
  | runtime_started
  | sigint_installed
  | set_argv (prgname : String)
  | pygobject_init
  | enable_threads
  | disable_warning_redirections
  | gettext_install
  | eval_code
  | idle_add (id : Nat)
  | source_remove (id : Nat)
  | runtime_finalized
  | process_exit
  deriving DecidableEq, Repr

/-- The value stored in the registry for a loaded plugin (`PythonInfo`). -/
structure PythonInfo where
  module : PyObject
  deriving DecidableEq, Repr

/-- A `GHashTable` from plugin descriptors to `PythonInfo`: a list of entries
in which no key occurs twice. -/
structure GHashTable where
  entries : List (PeasPluginInfo × PythonInfo)
  nodup : (entries.map Prod.fst).Nodup

/-- A native object (a `GObject`) as far as the loader is concerned: its type,
its reference count, the interface recorded under `"peas-extension-type"` and
the value of its `plugin_info` attribute. -/
structure GObject where
  g_type : GType
  ref_count : Nat
  extension_type : Option GType
  plugin_info : Option PeasPluginInfo
  deriving DecidableEq, Repr

/-- The answers of the interpreter and of the host type system. -/
structure Runtime where
  /-- The result of `PyObject_GetAttrString (pyg_type_wrapper_new (t), "pytype")`;
  `none` is `NULL`. -/
  pytype : GType → Option PyObject
  /-- The entries `PyDict_Next` yields for `PyModule_GetDict (m)`, in order. -/
  module_dict : PyObject → List (PyObject × PyObject)
  /-- The macro `PyType_Check`. -/
  PyType_Check : PyObject → Bool
  /-- The return code of `PyObject_IsSubclass (derived, cls)`. -/
  PyObject_IsSubclass : PyObject → PyObject → Int
  /-- The native type behind an interpreter type. -/
  pyg_type_from_object : PyObject → GType
  /-- The host's subtype test. -/
  g_type_is_a : GType → GType → Bool
  /-- Whether `g_object_newv` returns an object for this type and parameters. -/
  constructs : GType → List GParameter → Bool
  /-- The return code of `PyObject_SetAttrString (o, "plugin_info", v)` for a
  wrapper of an object of the given type. -/
  set_plugin_info : GType → Int
  /-- The module `PyImport_ImportModuleEx` finds for a name, given `sys.path`. -/
  find_module : List String → String → Option PyObject
  /-- Whether calling the named method of the hooks object raises. -/
  hook_raises : String → Bool
  /-- The number of unreachable objects the n-th call of `PyGC_Collect` finds. -/
  gc_found : Nat → Nat
  /-- The module directory of a descriptor (`peas_plugin_info_get_module_dir`). -/
  module_dir : PeasPluginInfo → Option String
  /-- The module name of a descriptor (`peas_plugin_info_get_module_name`). -/
  module_name : PeasPluginInfo → String

/-- The loader's private structure (`_PeasPluginLoaderPythonPrivate`) together
with the interpreter and host state the loader reads and writes. -/
structure State where
  loaded_plugins : GHashTable
  idle_gc : Nat
  init_failed : Bool
  must_finalize_python : Bool
  py_thread_state : Option Nat
  hooks : Option PyObject
  /-- How many holds of the execution lock are outstanding. -/
  gil_depth : Nat
  /-- How many times `PyGILState_Ensure` has been called. -/
  gil_ensured : Nat
  /-- How many times `PyGILState_Release` has been called. -/
  gil_released : Nat
  /-- The interpreter's error indicator (`PyErr_Occurred`). -/
  err_occurred : Bool
  /-- The list `sys.path`; `none` when `PySys_GetObject ("path")` is `NULL`. -/
  sys_path : Option (List String)
  /-- How many times the cyclic collector has run. -/
  gc_runs : Nat
  /-- The native objects created so far; an object is named by its index. -/
  heap : List GObject
  trace : List Event
  /-- Whether the interpreter is running (`Py_IsInitialized`). -/
  py_initialized : Bool
  /-- Whether the handler of `SIGINT` is `SIG_DFL`. -/
  sigint_default : Bool
  /-- The program name the interpreter was given (`sys.argv[0]`). -/
  argv0 : Option String
  /-- The idle sources pending in the main loop, by source id. -/
  sources : List Nat
  /-- The last source id the main loop handed out. -/
  last_source_id : Nat
  /-- Whether the error that is pending when `PyErr_Print` writes the event at
  this position of the trace is `SystemExit`. -/
  exit_at : Nat → Bool
  /-- The value of `idle_gc` at each pass of the cyclic collector so far, oldest
  first: what code run by the collector finds in the marker. -/
  marker_seen : List Nat
  /-- Whether `PyString_FromString` (`PyUnicode_FromString` in a build against
  3.0 or later) returns `NULL` for a C string: bytes that are not valid UTF-8,
  or no memory. -/
  py_string_fails : String → Bool
  /-- Whether `PySequence_Contains` on `sys.path` raises for a string. -/
  contains_raises : List String → String → Bool
  /-- Whether `PyList_Insert` on `sys.path` fails for a string. -/
  insert_fails : List String → String → Bool

/-! ## The registry -/

/-- The empty table (`g_hash_table_new_full`). -/
def GHashTable.empty : GHashTable := ⟨[], List.nodup_nil⟩

/-- The value stored for a key (`g_hash_table_lookup`); `none` is `NULL`. -/
def g_hash_table_lookup (t : GHashTable) (key : PeasPluginInfo) : Option PythonInfo :=
  (t.entries.find? (fun e => e.1 == key)).map Prod.snd

/-- The number of entries (`g_hash_table_size`). -/
def g_hash_table_size (t : GHashTable) : Nat := t.entries.length

/-- Store a value under a key, replacing the entry the key had
(`g_hash_table_insert`). -/
def g_hash_table_insert (t : GHashTable) (key : PeasPluginInfo) (value : PythonInfo) : GHashTable :=
  ⟨(key, value) :: t.entries.filter (fun e => e.1 != key), by
    rw [List.map_cons, List.nodup_cons]
    refine ⟨?_, ((List.filter_sublist t.entries).map Prod.fst).nodup t.nodup⟩
    intro hmem
    rcases List.mem_map.1 hmem with ⟨e, he, hk⟩
    have hne := (List.mem_filter.1 he).2
    simp at hne
    exact hne hk⟩

/-- The table without the entry of a key. -/
def GHashTable.erase (t : GHashTable) (key : PeasPluginInfo) : GHashTable :=
  ⟨t.entries.filter (fun e => e.1 != key),
    ((List.filter_sublist t.entries).map Prod.fst).nodup t.nodup⟩

/-! ## The execution lock and the error indicator -/

/-- Take a hold of the execution lock. -/
def PyGILState_Ensure (s : State) : State :=
  { s with gil_depth := s.gil_depth + 1, gil_ensured := s.gil_ensured + 1 }

/-- Give back a hold of the execution lock. -/
def PyGILState_Release (s : State) : State :=
  { s with gil_depth := s.gil_depth - 1, gil_released := s.gil_released + 1 }

/-- The test `PyErr_Occurred () != NULL`. -/
def PyErr_Occurred (s : State) : Bool := s.err_occurred

/-- What a call of `PyErr_Print` at position `n` of the trace leaves there:
the error is printed, or, when the error is `SystemExit`, the host process
is ended. -/
def printed_event (exit_at : Nat → Bool) (n : Nat) : Event :=
  if exit_at n then Event.process_exit else Event.err_print

/-- The call `PyErr_Print ()`: it prints the pending error and clears the error
indicator; when the pending error is `SystemExit` it ends the host process
instead of returning, which the trace records as `Event.process_exit`. What a
definition computes after that event is what the code would go on to do if
the process had not ended. -/
def PyErr_Print (s : State) : State :=
  { s with err_occurred := false,
           trace := s.trace ++ [printed_event s.exit_at s.trace.length] }

/-- Whether the host process has been ended by `PyErr_Print`. -/
def exited (s : State) : Prop := Event.process_exit ∈ s.trace

/-- A message on the host's log (`g_warning`, `g_warn_if_fail`,
`g_return_val_if_fail`). -/
def g_warning (msg : String) (s : State) : State :=
  { s with trace := s.trace ++ [Event.warning msg] }

/-- Log when the condition does not hold (`g_warn_if_fail`). -/
def g_warn_if_fail (cond : Bool) (msg : String) (s : State) : State :=
  if cond then s else g_warning msg s

/-- The macro `Py_DECREF`: it reads and writes the reference count of its
argument, so a `NULL` argument is a fault (`Py_XDECREF` is the variant that
accepts `NULL`). The reference counts of interpreter objects are not part of
the state. -/
def Py_DECREF (o : Option PyObject) : Except Fault Unit :=
  match o with
  | none => .error Fault.null_deref
  | some _ => .ok ()

/-! ## Resolving the extension type -/

/-- The loop `while (PyDict_Next (locals, &pos, &key, &value))` of
`find_python_extension_type` over the remaining entries: the value returned
from inside the loop, or `none` when the loop runs to its end. -/
def find_loop (rt : Runtime) (pytype : PyObject) :
    List (PyObject × PyObject) → State → Option PyObject × State
  | [], s => (none, s)
  | (_, value) :: rest, s =>
    if !rt.PyType_Check value then
      find_loop rt pytype rest s
    else
      let rc := rt.PyObject_IsSubclass value pytype
      -- a failed test leaves an error pending
      let s1 := if rc = -1 then { s with err_occurred := true } else s
      if rc = 1 then
        (some value, s1)
      else if rc = 0 then
        find_loop rt pytype rest s1
      else
        find_loop rt pytype rest (PyErr_Print s1)

/-- The function `find_python_extension_type`. -/
def find_python_extension_type (rt : Runtime) (s : State) (_info : PeasPluginInfo)
    (exten_type : GType) (pymodule : PyObject) : Except Fault (Option PyObject × State) :=
  let locals := rt.module_dict pymodule
  -- pygtype = pyg_type_wrapper_new (exten_type)
  let pygtype : Option PyObject := some exten_type
  let pytype := rt.pytype exten_type
  -- a failed attribute lookup leaves an error pending
  let s0 := if pytype.isNone then { s with err_occurred := true } else s
  let s1 := g_warn_if_fail pytype.isSome "pytype != NULL" s0
  let found : Option PyObject × State :=
    match pytype with
    | some t => if t != Py_None then find_loop rt t locals s1 else (none, s1)
    | none => (none, s1)
  -- both exits of the function release `pytype` and `pygtype`
  match Py_DECREF pytype with
  | .error e => .error e
  | .ok _ =>
    match Py_DECREF pygtype with
    | .error e => .error e
    | .ok _ => .ok found

/-- The function `peas_plugin_loader_python_provides_extension`. The entry of
the descriptor is read through the pointer the lookup returns, so a descriptor
without an entry is a fault. -/
def peas_plugin_loader_python_provides_extension (rt : Runtime) (s : State)
    (info : PeasPluginInfo) (exten_type : GType) : Except Fault (Bool × State) :=
  match g_hash_table_lookup s.loaded_plugins info with
  | none => .error Fault.null_deref
  | some pyinfo =>
    let s1 := PyGILState_Ensure s
    match find_python_extension_type rt s1 info exten_type pyinfo.module with
    | .error e => .error e
    | .ok (extension_type, s2) => .ok (extension_type.isSome, PyGILState_Release s2)

/-! ## Creating an extension -/

/-- Take a reference on a native object (`g_object_ref`). -/
def g_object_ref (s : State) (object : Nat) : State :=
  { s with heap := s.heap.modify (fun o => { o with ref_count := o.ref_count + 1 }) object }

/-- Drop a reference on a native object (`g_object_unref`). -/
def g_object_unref (s : State) (object : Nat) : State :=
  { s with heap := s.heap.modify (fun o => { o with ref_count := o.ref_count - 1 }) object }

/-- The function `g_object_newv`: when the host constructs the object it is a
new object, holding the one reference that belongs to the caller; `none` is
`NULL`. -/
def g_object_newv (rt : Runtime) (s : State) (the_type : GType) (parameters : List GParameter) :
    Option Nat × State :=
  if rt.constructs the_type parameters then
    (some s.heap.length,
      { s with heap := s.heap ++ [{ g_type := the_type, ref_count := 1,
                                    extension_type := none, plugin_info := none }] })
  else
    (none, s)

/-- The call `g_object_set_data (object, "peas-extension-type", exten_type)`. -/
def g_object_set_data (s : State) (object : Nat) (exten_type : GType) : State :=
  { s with heap := s.heap.modify (fun o => { o with extension_type := some exten_type }) object }

/-- Modelled from the spec: `pygobject_new` belongs to the interoperability
layer. The wrapper it returns is the temporary interpreter-side reference of
the spec (section 4.5): it holds one reference on the native object for as
long as it lives. -/
def pygobject_new (s : State) (object : Nat) : State :=
  g_object_ref s object

/-- Modelled from the spec: `Py_DECREF (pyobject)` gives up the only reference
on the wrapper, which releases the reference the wrapper holds on the native
object (section 4.5: all interpreter-side temporary references created during
wrapping are released before returning). -/
def Py_DECREF_wrapper (s : State) (object : Nat) : State :=
  g_object_unref s object

/-- The call `PyObject_SetAttrString (pyobject, "plugin_info", pyplinfo)`: the
return code, and on success the attribute on the object. A failure leaves an
error pending. -/
def PyObject_SetAttrString (rt : Runtime) (s : State) (object : Nat) (the_type : GType)
    (info : PeasPluginInfo) : Int × State :=
  let rc := rt.set_plugin_info the_type
  if rc = -1 then
    (rc, { s with err_occurred := true })
  else
    (rc, { s with heap := s.heap.modify (fun o => { o with plugin_info := some info }) object })

/-- The function `peas_plugin_loader_python_create_extension`; the object
returned is named by its index in the heap, `none` is `NULL`. -/
def peas_plugin_loader_python_create_extension (rt : Runtime) (s : State)
    (info : PeasPluginInfo) (exten_type : GType) (parameters : List GParameter) :
    Except Fault (Option Nat × State) :=
  match g_hash_table_lookup s.loaded_plugins info with
  | none => .error Fault.null_deref
  | some pyinfo =>
    let s1 := PyGILState_Ensure s
    match find_python_extension_type rt s1 info exten_type pyinfo.module with
    | .error e => .error e
    | .ok (none, s2) => .ok (none, PyGILState_Release s2)
    | .ok (some pytype, s2) =>
      let the_type := rt.pyg_type_from_object pytype
      if the_type = G_TYPE_INVALID then
        -- the failed mapping leaves an error pending
        .ok (none, PyGILState_Release { s2 with err_occurred := true })
      else if !rt.g_type_is_a the_type exten_type then
        let s3 := g_warn_if_fail (rt.g_type_is_a the_type exten_type)
          "g_type_is_a (the_type, exten_type)" s2
        .ok (none, PyGILState_Release s3)
      else
        match g_object_newv rt s2 the_type parameters with
        | (none, s3) => .ok (none, PyGILState_Release s3)
        | (some object, s3) =>
          let s4 := g_object_set_data s3 object exten_type
          let s5 := pygobject_new s4 object
          -- pyplinfo = pyg_boxed_new (PEAS_TYPE_PLUGIN_INFO, info, TRUE, TRUE)
          let (rc, s6) := PyObject_SetAttrString rt s5 object the_type info
          if rc = -1 then
            let s7 := g_warning "Failed to set plugin_info" s6
            let s8 := if PyErr_Occurred s7 then PyErr_Print s7 else s7
            -- g_clear_object (&object)
            let s9 := g_object_unref s8 object
            .ok (none, PyGILState_Release (Py_DECREF_wrapper s9 object))
          else
            .ok (some object, PyGILState_Release (Py_DECREF_wrapper s6 object))

/-! ## The module search path -/

/-- The call `PySequence_Contains (pathlist, pathstring)` on `sys.path`: -1
when the test raises, and otherwise 1 when the string occurs in the list and 0
when it does not. -/
def PySequence_Contains (s : State) (pathlist : List String) (pathstring : String) : Int :=
  if s.contains_raises pathlist pathstring then -1
  else if pathstring ∈ pathlist then 1 else 0

/-- The call `PyList_Insert (pathlist, 0, pathstring)`: the return code and the
list, which has the string in front when the code is 0 and is as it was when
the insertion fails with -1. -/
def PyList_Insert_front (s : State) (pathlist : List String) (pathstring : String) :
    Int × List String :=
  if s.insert_fails pathlist pathstring then (-1, pathlist) else (0, pathstring :: pathlist)

/-- The function `peas_plugin_loader_python_add_module_path`. The first guard,
`PEAS_IS_PLUGIN_LOADER_PYTHON (pyloader)`, holds of every `State`. A call of
the interpreter that fails leaves an error pending. -/
def peas_plugin_loader_python_add_module_path (s : State) (module_path : Option String) :
    Bool × State :=
  match module_path with
  | none => (false, g_warning "module_path != NULL" s)
  | some path =>
    match s.sys_path with
    | none => (false, s)
    | some pathlist =>
      -- pathstring = PyString_FromString (module_path), PyUnicode_FromString from 3.0 on
      if s.py_string_fails path then
        (false, { s with err_occurred := true })
      else
        let rc := PySequence_Contains s pathlist path
        if rc = 0 then
          let (rc_insert, pathlist1) := PyList_Insert_front s pathlist path
          let s1 := if rc_insert < 0 then { s with err_occurred := true } else s
          (decide (rc_insert ≥ 0), { s1 with sys_path := some pathlist1 })
        else if rc = 1 then
          (true, s)
        else
          (false, { s with err_occurred := true })

/-! ## Loading and unloading -/

/-- The function `add_python_info`. -/
def add_python_info (s : State) (info : PeasPluginInfo) (module : PyObject) : State :=
  { s with loaded_plugins := g_hash_table_insert s.loaded_plugins info { module := module } }

/-- The call `PyImport_ImportModuleEx (module_name, NULL, NULL, fromlist)`:
`none` is `NULL`, which leaves an error pending. -/
def PyImport_ImportModuleEx (rt : Runtime) (s : State) (module_name : String) :
    Option PyObject × State :=
  let s1 := { s with trace := s.trace ++ [Event.imported module_name] }
  match rt.find_module (s.sys_path.getD []) module_name with
  | none => (none, { s1 with err_occurred := true })
  | some pymodule => (some pymodule, s1)

/-- The function `peas_plugin_loader_python_load`. -/
def peas_plugin_loader_python_load (rt : Runtime) (s : State) (info : PeasPluginInfo) :
    Bool × State :=
  if (g_hash_table_lookup s.loaded_plugins info).isSome then
    (true, s)
  else
    let module_dir := rt.module_dir info
    let module_name := rt.module_name info
    let s1 := PyGILState_Ensure s
    match peas_plugin_loader_python_add_module_path s1 module_dir with
    | (false, s2) =>
      let s3 := g_warning "Error loading plugin: failed to add module path" s2
      let s4 := if PyErr_Occurred s3 then PyErr_Print s3 else s3
      (false, PyGILState_Release s4)
    | (true, s2) =>
      match PyImport_ImportModuleEx rt s2 module_name with
      | (none, s3) => (false, PyGILState_Release (PyErr_Print s3))
      | (some pymodule, s3) =>
        let s4 := add_python_info s3 info pymodule
        (true, PyGILState_Release s4)

/-- The call `PyObject_CallMethod (recv, name, NULL)` on the hooks object: the
call is recorded; it fails, leaving an error pending, when the receiver is
`NULL` or when the method raises. The flag returned says whether a result came
back. -/
def PyObject_CallMethod (rt : Runtime) (s : State) (recv : Option PyObject) (name : String) :
    Bool × State :=
  let s1 := { s with trace := s.trace ++ [Event.call_method recv name] }
  match recv with
  | none => (false, { s1 with err_occurred := true })
  | some _ => if rt.hook_raises name then (false, { s1 with err_occurred := true }) else (true, s1)

/-- The function `internal_python_hook`. -/
def internal_python_hook (rt : Runtime) (s : State) (name : String) : State :=
  let s1 := PyGILState_Ensure s
  let (_result, s2) := PyObject_CallMethod rt s1 s1.hooks name
  -- Py_XDECREF (result)
  let s3 := if PyErr_Occurred s2 then PyErr_Print s2 else s2
  PyGILState_Release s3

/-- The function `destroy_python_info`, the registry's value destructor. -/
def destroy_python_info (s : State) (_info : PythonInfo) : State :=
  let s1 := PyGILState_Ensure s
  -- Py_DECREF (info->module)
  PyGILState_Release s1

/-- The call `g_hash_table_remove (loaded_plugins, info)`: an entry that is
found is removed and its value handed to `destroy_python_info`. -/
def g_hash_table_remove (s : State) (info : PeasPluginInfo) : State :=
  match g_hash_table_lookup s.loaded_plugins info with
  | none => s
  | some pyinfo =>
    destroy_python_info { s with loaded_plugins := s.loaded_plugins.erase info } pyinfo

/-- The function `peas_plugin_loader_python_unload`. -/
def peas_plugin_loader_python_unload (rt : Runtime) (s : State) (info : PeasPluginInfo) : State :=
  let s1 := g_hash_table_remove s info
  if g_hash_table_size s1.loaded_plugins = 0 then
    internal_python_hook rt s1 "all_plugins_unloaded"
  else
    s1

/-! ## Garbage collection -/

/-- One pass of the cyclic collector (`PyGC_Collect`): the number of
unreachable objects it found. -/
def PyGC_Collect (rt : Runtime) (s : State) : Nat × State :=
  let found := rt.gc_found s.gc_runs
  (found, { s with gc_runs := s.gc_runs + 1, trace := s.trace ++ [Event.gc_collect found],
                   marker_seen := s.marker_seen ++ [s.idle_gc] })

/-- The loop `while (PyGC_Collect ()) ;` run for at most `fuel` passes; `none`
when the passes are used up before one finds nothing. -/
def gc_while (rt : Runtime) : Nat → State → Option State
  | 0, _ => none
  | fuel + 1, s =>
    let (found, s1) := PyGC_Collect rt s
    if found ≠ 0 then gc_while rt fuel s1 else some s1

/-- The function `run_gc_protected`, its loop bounded by `fuel` passes. -/
def run_gc_protected (rt : Runtime) (fuel : Nat) (s : State) : Option State :=
  match gc_while rt fuel (PyGILState_Ensure s) with
  | none => none
  | some s1 => some (PyGILState_Release s1)

/-! ## Starting and stopping the interpreter -/

/-- What is fixed when the loader is built, and what the interpreter and the
host answer while the loader starts. -/
structure Startup where
  /-- The version of the interpreter headers the loader is compiled against. -/
  PY_VERSION_HEX : Nat
  /-- The directory of the loader's own modules. -/
  PEAS_PYEXECDIR : String
  /-- The value of `PyLong_AsLong (PySys_GetObject ("hexversion"))`. -/
  hexversion : Int
  /-- The result of `g_get_prgname ()`; `none` is `NULL`. -/
  prgname : Option String
  /-- The list `sys.path` of an interpreter that has just been started. -/
  default_path : List String
  /-- The directory `PySys_SetArgv` puts in front of `sys.path`. -/
  script_dir : String
  /-- Whether `pygobject_init` leaves an error pending. -/
  pygobject_init_raises : Bool
  /-- The result of `PyImport_ImportModule ("gettext")`. -/
  gettext : Option PyObject
  /-- Whether the call of `gettext.install` raises. -/
  gettext_install_raises : Bool
  /-- The result of importing the module of built-in definitions. -/
  builtins_module : Option PyObject
  /-- Whether `g_resources_lookup_data` finds `internal.py`. -/
  internal_python : Bool
  /-- Whether `Py_CompileString` returns a code object. -/
  code_compiles : Bool
  /-- Whether `PyDict_New` returns a dictionary. -/
  globals_created : Bool
  /-- Whether `PyDict_SetItemString (globals, "__builtins__", ...)` returns 0. -/
  builtins_set : Bool
  /-- Whether evaluating the code of `internal.py` raises. -/
  eval_raises : Bool
  /-- The result of `PyDict_GetItemString (globals, "hooks")`. -/
  hooks : Option PyObject

/-- The function `peas_plugin_loader_python_init`: the private structure of a
new loader is zeroed and gets an empty registry. -/
def peas_plugin_loader_python_init (s : State) : State :=
  { s with loaded_plugins := GHashTable.empty, idle_gc := 0, init_failed := false,
           must_finalize_python := false, py_thread_state := none, hooks := none }

/-- The test `Py_IsInitialized ()`. -/
def Py_IsInitialized (s : State) : Bool := s.py_initialized

/-- The block under `HAVE_SIGACTION`: a handler that ends in the default one is
installed for `SIGINT` when the handler in place is `SIG_DFL`. -/
def install_default_sigint (s : State) : State :=
  if s.sigint_default then
    { s with sigint_default := false, trace := s.trace ++ [Event.sigint_installed] }
  else
    s

/-- Modelled from the spec: the call `Py_InitializeEx (FALSE)` starts the
interpreter, and the thread that starts it holds the execution lock until it
saves its thread state (section 4.2, step 8). -/
def Py_InitializeEx (cfg : Startup) (s : State) : State :=
  { s with py_initialized := true, sys_path := some cfg.default_path,
           gil_depth := s.gil_depth + 1, trace := s.trace ++ [Event.runtime_started] }

/-- Modelled from the spec: `PyEval_SaveThread` gives up the hold of the thread
on the execution lock and returns its thread state (section 4.2, step 8). -/
def PyEval_SaveThread (s : State) : State :=
  { s with gil_depth := s.gil_depth - 1, py_thread_state := some 1 }

/-- The version test of the start, `hexversion >= 0x03000000` in a loader
compiled against an interpreter below 3.0 and `hexversion < 0x03000000` in the
others: whether the versions are taken to be incompatible. -/
def version_mismatch (cfg : Startup) : Bool :=
  if cfg.PY_VERSION_HEX < 0x03000000 then
    decide (cfg.hexversion ≥ 0x03000000)
  else
    decide (cfg.hexversion < 0x03000000)

/-- The call `PySys_SetArgv (1, argv)`: it sets `sys.argv` and puts the
directory of the script in front of `sys.path`. -/
def PySys_SetArgv (cfg : Startup) (s : State) (prgname : String) : State :=
  { s with argv0 := some prgname, sys_path := s.sys_path.map (fun l => cfg.script_dir :: l),
           trace := s.trace ++ [Event.set_argv prgname] }

/-- The call `PySys_SetArgvEx (1, argv, 0)`: it sets `sys.argv` only. -/
def PySys_SetArgvEx (s : State) (prgname : String) : State :=
  { s with argv0 := some prgname, trace := s.trace ++ [Event.set_argv prgname] }

/-- The call `PyRun_SimpleString ("import sys; sys.path.pop(0)\n")`. -/
def PyRun_pop_path (s : State) : State :=
  { s with sys_path := s.sys_path.map List.tail }

/-- The four variants, by `PY_VERSION_HEX`, of handing the program name to the
interpreter. -/
def set_program_name (cfg : Startup) (s : State) : State :=
  let prgname := cfg.prgname.getD ""
  if cfg.PY_VERSION_HEX < 0x02060600 then
    PyRun_pop_path (PySys_SetArgv cfg s prgname)
  else if cfg.PY_VERSION_HEX < 0x03000000 then
    PySys_SetArgvEx s prgname
  else if cfg.PY_VERSION_HEX < 0x03010300 then
    PyRun_pop_path (PySys_SetArgv cfg s prgname)
  else
    PySys_SetArgvEx s prgname

/-- The call `pygobject_init (...)`; a failure leaves an error pending. -/
def pygobject_init (cfg : Startup) (s : State) : State :=
  { s with err_occurred := s.err_occurred || cfg.pygobject_init_raises,
           trace := s.trace ++ [Event.pygobject_init] }

/-- The calls `pyg_enable_threads ()` and `PyEval_InitThreads ()`. -/
def PyEval_InitThreads (s : State) : State :=
  { s with trace := s.trace ++ [Event.enable_threads] }

/-- The call `pyg_disable_warning_redirections ()`. -/
def pyg_disable_warning_redirections (s : State) : State :=
  { s with trace := s.trace ++ [Event.disable_warning_redirections] }

/-- The call `PyImport_ImportModule (name)` with the module the interpreter
answers; `none` is `NULL`, which leaves an error pending. -/
def PyImport_ImportModule (answer : Option PyObject) (name : String) (s : State) :
    Option PyObject × State :=
  let s1 := { s with trace := s.trace ++ [Event.imported name] }
  match answer with
  | none => (none, { s1 with err_occurred := true })
  | some m => (some m, s1)

/-- The call `PyObject_CallMethod (gettext, "install", "ss", ...)`. -/
def gettext_install (cfg : Startup) (s : State) : State :=
  { s with err_occurred := s.err_occurred || cfg.gettext_install_raises,
           trace := s.trace ++ [Event.gettext_install] }

/-- The call `PyEval_EvalCode (code, globals, globals)`. -/
def PyEval_EvalCode (cfg : Startup) (s : State) : State :=
  { s with err_occurred := s.err_occurred || cfg.eval_raises,
           trace := s.trace ++ [Event.eval_code] }

/-- The end of the body of `peas_plugin_loader_python_initialize`, from the import
of the built-in definitions to the lookup of the hooks object: the bootstrap
script. `false` stands for `goto python_init_error`, `true` for
reaching the successful end. -/
def initialize_bootstrap (cfg : Startup) (s : State) : Bool × State :=
  match PyImport_ImportModule cfg.builtins_module
      (if cfg.PY_VERSION_HEX < 0x03000000 then "__builtin__" else "builtins") s with
  | (none, s1) => (false, s1)
  | (some _, s1) =>
    if !cfg.internal_python then
      (false, g_warning "failed to locate internal python code" s1)
    else if !cfg.code_compiles then
      (false, g_warning "failed to compile internal python code" { s1 with err_occurred := true })
    else if !cfg.globals_created then
      (false, { s1 with err_occurred := true })
    else if !cfg.builtins_set then
      (false, { s1 with err_occurred := true })
    else
      let s2 := PyEval_EvalCode cfg s1
      if PyErr_Occurred s2 then
        (false, g_warning "failed to run internal python code" s2)
      else
        let s3 := { s2 with hooks := cfg.hooks }
        if s3.hooks.isNone then
          (false, g_warning "failed to find internal python hooks" s3)
        else
          (true, s3)

/-- The body of `peas_plugin_loader_python_initialize` from the localization
support on. -/
def initialize_gettext (cfg : Startup) (s : State) : Bool × State :=
  match PyImport_ImportModule cfg.gettext "gettext" s with
  | (none, s1) => (false, g_warning "failed to import gettext" s1)
  | (some _, s1) =>
    let s2 := gettext_install cfg s1
    if PyErr_Occurred s2 then
      (false, g_warning "failed to install gettext" s2)
    else
      initialize_bootstrap cfg s2

/-- The body of `peas_plugin_loader_python_initialize` from the start of the
interoperability layer on. -/
def initialize_pygobject (cfg : Startup) (s : State) : Bool × State :=
  let s1 := pygobject_init cfg s
  if PyErr_Occurred s1 then
    (false, g_warning "PyGObject initialization failed" s1)
  else
    let s2 := PyEval_InitThreads s1
    let s3 := if !s2.must_finalize_python then pyg_disable_warning_redirections s2 else s2
    initialize_gettext cfg s3

/-- The body of `peas_plugin_loader_python_initialize` between the start of the
interpreter and the two ends of the function: `false` stands for
`goto python_init_error`, `true` for reaching the successful end. -/
def initialize_steps (cfg : Startup) (s : State) : Bool × State :=
  if version_mismatch cfg then
    (false, g_warning "Attempting to mix incompatible Python versions" s)
  else
    let s1 := set_program_name cfg s
    match peas_plugin_loader_python_add_module_path s1 (some cfg.PEAS_PYEXECDIR) with
    | (false, s2) => (false, g_warning "failed to add the module path" s2)
    | (true, s2) => initialize_pygobject cfg s2

/-- The beginning of `peas_plugin_loader_python_initialize`: the loader takes the
lock of an interpreter that is running, or starts the interpreter itself and
records that it has to shut it down. -/
def start_or_attach (cfg : Startup) (s : State) : State :=
  if Py_IsInitialized s then
    PyGILState_Ensure s
  else
    { Py_InitializeEx cfg (install_default_sigint s) with must_finalize_python := true }

/-- The function `peas_plugin_loader_python_initialize`. -/
def peas_plugin_loader_python_initialize (cfg : Startup) (s : State) : Bool × State :=
  let s1 := start_or_attach cfg { s with init_failed := true }
  match initialize_steps cfg s1 with
  | (true, s2) =>
    let s3 := { s2 with init_failed := false }
    if !s3.must_finalize_python then
      (true, PyGILState_Release s3)
    else
      (true, PyEval_SaveThread s3)
  | (false, s2) =>
    -- python_init_error:
    let s3 := if PyErr_Occurred s2 then PyErr_Print s2 else s2
    let s4 := g_warning "Please check the installation of all the Python related packages" s3
    if !s4.must_finalize_python then
      (false, PyGILState_Release s4)
    else
      (false, s4)

/-- The call `g_idle_add (run_gc, pyloader)`: the main loop hands out the next
source id, which is not 0, and holds the source until it is dispatched. -/
def g_idle_add (s : State) : Nat × State :=
  let id := s.last_source_id + 1
  (id, { s with last_source_id := id, sources := s.sources ++ [id],
                trace := s.trace ++ [Event.idle_add id] })

/-- The function `run_gc`, the idle callback; the flag returned is `FALSE`,
which tells the main loop to drop the source. -/
def run_gc (rt : Runtime) (fuel : Nat) (s : State) : Option (Bool × State) :=
  match run_gc_protected rt fuel s with
  | none => none
  | some s1 => some (false, { s1 with idle_gc := 0 })

/-- The function `peas_plugin_loader_python_garbage_collect`. -/
def peas_plugin_loader_python_garbage_collect (rt : Runtime) (fuel : Nat) (s : State) :
    Option State :=
  match run_gc_protected rt fuel s with
  | none => none
  | some s1 =>
    if s1.idle_gc = 0 then
      let (id, s2) := g_idle_add s1
      -- g_source_set_name_by_id (idle_gc, "[libpeas] run_gc")
      some { s2 with idle_gc := id }
    else
      some s1

/-- The main loop dispatches the idle source `id`: it calls `run_gc` and drops
the source when the callback returns `FALSE`. -/
def dispatch_idle (rt : Runtime) (fuel : Nat) (s : State) (id : Nat) : Option State :=
  match run_gc rt fuel s with
  | none => none
  | some (keep, s1) => if keep then some s1 else some { s1 with sources := s1.sources.erase id }

/-- The function `peas_plugin_loader_python_garbage_collect` called `n` times
in a row. -/
def garbage_collect_times (rt : Runtime) (fuel : Nat) : Nat → State → Option State
  | 0, s => some s
  | n + 1, s =>
    match peas_plugin_loader_python_garbage_collect rt fuel s with
    | none => none
    | some s1 => garbage_collect_times rt fuel n s1

/-! ## A sample runtime and a sample loader state -/

/-- A runtime with one interface, native type 10, wrapped as the interpreter
type 100, and two plugin types 200 and 201 (native types 20 and 21) that
implement it. As in the interpreter, where `issubclass (C, C)` is true, the
subclass test accepts the wrapped type against itself; the host constructs
objects of the plugin types only, an interface cannot be instantiated. The
interface 11 has no `pytype` attribute, the interface 12 has `None` for it.
Module 1 imported the interface by name before defining its plugin type;
module 2 only defines plugin types; in module 3 the test of the first type
raises. The one module on disk is `sample`, in `/plugins/sample`. -/
def sample_runtime : Runtime where
  pytype := fun t => if t = 10 then some 100 else if t = 12 then some Py_None else none
  module_dict := fun m =>
    if m = 1 then [(50, 60), (51, 100), (52, 200)]
    else if m = 2 then [(50, 60), (52, 200), (53, 201)]
    else if m = 3 then [(54, 300), (52, 200)]
    else [(50, 60)]
  PyType_Check := fun o => decide (100 ≤ o)
  PyObject_IsSubclass := fun derived cls =>
    if derived = 300 then -1
    else if cls = 100 ∧ (derived = 100 ∨ derived = 200 ∨ derived = 201) then 1
    else 0
  pyg_type_from_object := fun o =>
    if o = 100 then 10 else if o = 200 then 20 else if o = 201 then 21 else G_TYPE_INVALID
  g_type_is_a := fun a b => decide (a = b ∨ (b = 10 ∧ (a = 20 ∨ a = 21)))
  constructs := fun t _ => decide (t = 20 ∨ t = 21)
  set_plugin_info := fun _ => 0
  find_module := fun path name =>
    if name = "sample" ∧ "/plugins/sample" ∈ path then some 2 else none
  hook_raises := fun _ => false
  gc_found := fun _ => 0
  module_dir := fun _ => some "/plugins/sample"
  module_name := fun info => if info = 7 then "sample" else "nonexistent"

/-- A loader after a successful start, with the given registry. -/
def sample_state (registry : GHashTable) : State where
  loaded_plugins := registry
  idle_gc := 0
  init_failed := false
  must_finalize_python := false
  py_thread_state := none
  hooks := some 900
  gil_depth := 0
  gil_ensured := 0
  gil_released := 0
  err_occurred := false
  sys_path := some ["/usr/lib/python"]
  gc_runs := 0
  heap := []
  trace := []
  py_initialized := true
  sigint_default := true
  argv0 := some "host"
  sources := []
  last_source_id := 0
  exit_at := fun _ => false
  marker_seen := []
  py_string_fails := fun _ => false
  contains_raises := fun _ _ => false
  insert_fails := fun _ _ => false

/-- The registry with one entry: the descriptor and its module. -/
def registry_of (info : PeasPluginInfo) (module : PyObject) : GHashTable :=
  ⟨[(info, { module := module })], by simp⟩

/-- The sample loader with module 2 loaded for descriptor 7, after one call
that took and gave back the lock. -/
def sample_after_call : State :=
  { sample_state (registry_of 7 2) with gil_ensured := 1, gil_released := 1 }

/-- The sample loader after one creation for descriptor 7 and interface 10. -/
def sample_created_once : State :=
  { sample_state (registry_of 7 2) with
    gil_ensured := 1, gil_released := 1,
    heap := [{ g_type := 20, ref_count := 1, extension_type := some 10, plugin_info := some 7 }] }

/-- The sample loader after two creations for descriptor 7 and interface 10. -/
def sample_created_twice : State :=
  { sample_state (registry_of 7 2) with
    gil_ensured := 2, gil_released := 2,
    heap := [{ g_type := 20, ref_count := 1, extension_type := some 10, plugin_info := some 7 },
             { g_type := 20, ref_count := 1, extension_type := some 10, plugin_info := some 7 }] }

/-- A loader built against the interpreter 3.4 that meets an interpreter 3.4
in which every step of the start succeeds. -/
def sample_startup : Startup where
  PY_VERSION_HEX := 0x030400F0
  PEAS_PYEXECDIR := "/usr/lib/libpeas/python"
  hexversion := 0x030400F0
  prgname := some "host"
  default_path := ["/usr/lib/python"]
  script_dir := ""
  pygobject_init_raises := false
  gettext := some 800
  gettext_install_raises := false
  builtins_module := some 801
  internal_python := true
  code_compiles := true
  globals_created := true
  builtins_set := true
  eval_raises := false
  hooks := some 900

/-- A host with a new loader, the interpreter running or not. -/
def sample_host (running : Bool) : State :=
  peas_plugin_loader_python_init { sample_state GHashTable.empty with py_initialized := running }

/-- A loader that started the interpreter itself, with the module 2 loaded for
the descriptor 7 and an idle source pending. -/
def sample_owned : State :=
  { sample_state (registry_of 7 2) with
    must_finalize_python := true, py_thread_state := some 1,
    idle_gc := 3, sources := [3], last_source_id := 3 }

/-- The sample runtime with plugin types that map to no native type. -/
def sample_runtime_unmapped : Runtime :=
  { sample_runtime with pyg_type_from_object := fun _ => G_TYPE_INVALID }

/-- The sample loader state in an interpreter that cannot make a string object
of the directory `/plugins/undecodable`: the conversion of that directory
returns `NULL`. -/
def sample_unconvertible : State :=
  { sample_state GHashTable.empty with
    py_string_fails := fun path => decide (path = "/plugins/undecodable") }

/-- The sample runtime with one more plugin, the descriptor 9: the code of its
module `quitter` calls `sys.exit ()` when the module is imported, so the import
returns `NULL`. -/
def sample_runtime_quitting : Runtime :=
  { sample_runtime with
    module_name := fun info =>
      if info = 7 then "sample" else if info = 9 then "quitter" else "nonexistent" }

/-- The sample loader state, the module 2 loaded for the descriptor 7, in an
interpreter where the errors that are printed are `SystemExit`. -/
def sample_exiting : State :=
  { sample_state (registry_of 7 2) with exit_at := fun _ => true }

/-! ## What the claims say, in the words of the specification -/

/-- The first value of the module dictionary, in enumeration order, that is a
type object and for which the subclass test against the wrapped type reports
true (the return code 1). -/
def first_matching_type (rt : Runtime) (wrapped : PyObject)
    (locals : List (PyObject × PyObject)) : Option PyObject :=
  (locals.find? (fun e => rt.PyType_Check e.2 && decide (rt.PyObject_IsSubclass e.2 wrapped = 1))).map
    Prod.snd

/-- The steps of a creation that follow the resolution of the type: the type
maps to a valid native type, that type is-a the requested interface, the host
constructs the object, and the attribute `plugin_info` is set. -/
def creation_steps_succeed (rt : Runtime) (exten_type : GType) (parameters : List GParameter)
    (resolved : Option PyObject) : Prop :=
  ∃ pytype, resolved = some pytype ∧
    rt.pyg_type_from_object pytype ≠ G_TYPE_INVALID ∧
    rt.g_type_is_a (rt.pyg_type_from_object pytype) exten_type = true ∧
    rt.constructs (rt.pyg_type_from_object pytype) parameters = true ∧
    rt.set_plugin_info (rt.pyg_type_from_object pytype) ≠ -1

/-- Whether an event is a call of a lifecycle hook. -/
def is_hook_call : Event → Bool
  | Event.call_method _ _ => true
  | _ => false

/-- The lock is as it was: the hold depth of `s1` is that of `s`, and between
the two states the lock was taken and given back the same number of times. -/
def lock_balanced (s s1 : State) : Prop :=
  s1.gil_depth = s.gil_depth ∧
  ∃ n, s1.gil_ensured = s.gil_ensured + n ∧ s1.gil_released = s.gil_released + n

/-- The major version in a version number of the format of `sys.hexversion`:
the bits above the low 24. -/
def major_version (hex : Int) : Int := hex / 0x01000000

/-- Whether an event is one of the configuration steps of the start that
follow the version test: program name, interoperability layer, threads,
localization, bootstrap script and the imports they make. -/
def is_config_step : Event → Bool
  | Event.set_argv _ => true
  | Event.pygobject_init => true
  | Event.enable_threads => true
  | Event.disable_warning_redirections => true
  | Event.gettext_install => true
  | Event.eval_code => true
  | Event.imported _ => true
  | _ => false

/-- Whether an event is the shutdown of the interpreter. -/
def is_shutdown : Event → Bool
  | Event.runtime_finalized => true
  | _ => false

/-- Whether an event is a pass of the cyclic collector. -/
def is_gc_pass : Event → Bool
  | Event.gc_collect _ => true
  | _ => false

/-- Whether an event is the scheduling of an idle source. -/
def is_idle_add : Event → Bool
  | Event.idle_add _ => true
  | _ => false

/-- The second state is the first one but for what the interpreter holds: the
error indicator, the trace, `sys.path`, `sys.argv` and the hooks object. -/
def same_loader (s s1 : State) : Prop :=
  ∃ e tr sp a h, s1 =
    { s with err_occurred := e, trace := tr, sys_path := sp, argv0 := a, hooks := h }

/-! ## The event of a printed error -/

@[simp] theorem is_hook_call_printed_event (exit_at : Nat → Bool) (n : Nat) :
    is_hook_call (printed_event exit_at n) = false := by
  unfold printed_event
  split <;> rfl

@[simp] theorem is_config_step_printed_event (exit_at : Nat → Bool) (n : Nat) :
    is_config_step (printed_event exit_at n) = false := by
  unfold printed_event
  split <;> rfl

@[simp] theorem is_shutdown_printed_event (exit_at : Nat → Bool) (n : Nat) :
    is_shutdown (printed_event exit_at n) = false := by
  unfold printed_event
  split <;> rfl

@[simp] theorem is_gc_pass_printed_event (exit_at : Nat → Bool) (n : Nat) :
    is_gc_pass (printed_event exit_at n) = false := by
  unfold printed_event
  split <;> rfl

@[simp] theorem is_idle_add_printed_event (exit_at : Nat → Bool) (n : Nat) :
    is_idle_add (printed_event exit_at n) = false := by
  unfold printed_event
  split <;> rfl

/-! ## Resolution -/

theorem find_loop_fst (rt : Runtime) (wrapped : PyObject) (locals : List (PyObject × PyObject))
    (s : State) : (find_loop rt wrapped locals s).1 = first_matching_type rt wrapped locals := by
  induction locals generalizing s with
  | nil => rfl
  | cons e rest ih =>
    obtain ⟨key, value⟩ := e
    unfold find_loop first_matching_type
    by_cases hty : rt.PyType_Check value = true
    · by_cases h1 : rt.PyObject_IsSubclass value wrapped = 1
      · simp [hty, h1, List.find?]
      · by_cases h0 : rt.PyObject_IsSubclass value wrapped = 0
        · simp only [hty, h1, h0, List.find?]
          simpa [first_matching_type] using ih _
        · simp only [hty, h1, h0, List.find?]
          simpa [first_matching_type] using ih _
    · simp only [hty, List.find?]
      simpa [first_matching_type] using ih _

theorem find_loop_frame (rt : Runtime) (wrapped : PyObject) (locals : List (PyObject × PyObject))
    (s : State) :
    ∃ e tr, (find_loop rt wrapped locals s).2 = { s with err_occurred := e, trace := tr } := by
  induction locals generalizing s with
  | nil => exact ⟨s.err_occurred, s.trace, rfl⟩
  | cons e rest ih =>
    obtain ⟨key, value⟩ := e
    unfold find_loop
    by_cases hty : rt.PyType_Check value = true
    · by_cases h1 : rt.PyObject_IsSubclass value wrapped = 1
      · simp only [hty, h1]
        exact ⟨s.err_occurred, s.trace, by simp⟩
      · by_cases h0 : rt.PyObject_IsSubclass value wrapped = 0
        · simp only [hty, h1, h0]
          obtain ⟨e1, tr1, h⟩ := ih s
          exact ⟨e1, tr1, by simpa using h⟩
        · simp only [hty, h1, h0]
          obtain ⟨e1, tr1, h⟩ := ih (PyErr_Print
            (if rt.PyObject_IsSubclass value wrapped = -1 then { s with err_occurred := true } else s))
          refine ⟨e1, tr1, ?_⟩
          simp only [Bool.not_true, Bool.false_eq_true, if_false]
          rw [h]
          split <;> simp [PyErr_Print]
    · simp only [hty]
      obtain ⟨e1, tr1, h⟩ := ih s
      exact ⟨e1, tr1, by simpa using h⟩

theorem find_python_extension_type_of_absent (rt : Runtime) (s : State) (info : PeasPluginInfo)
    (exten_type : GType) (pymodule : PyObject) (h : rt.pytype exten_type = none) :
    find_python_extension_type rt s info exten_type pymodule = .error Fault.null_deref := by
  simp [find_python_extension_type, h, Py_DECREF]

theorem find_python_extension_type_of_present (rt : Runtime) (s : State) (info : PeasPluginInfo)
    (exten_type : GType) (pymodule wrapped : PyObject) (h : rt.pytype exten_type = some wrapped) :
    find_python_extension_type rt s info exten_type pymodule =
      .ok (if wrapped != Py_None then find_loop rt wrapped (rt.module_dict pymodule) s
           else (none, s)) := by
  simp [find_python_extension_type, h, Py_DECREF, g_warn_if_fail]

/-- With the `pytype` attribute present, resolution returns; it returns no type
when the attribute is `None`, and otherwise the first value of the module
dictionary that is a type object accepted by the subclass test. -/
theorem find_python_extension_type_first (rt : Runtime) (s : State) (info : PeasPluginInfo)
    (exten_type : GType) (pymodule wrapped : PyObject) (h : rt.pytype exten_type = some wrapped) :
    ∃ s1, find_python_extension_type rt s info exten_type pymodule =
      .ok (if wrapped = Py_None then none
           else first_matching_type rt wrapped (rt.module_dict pymodule), s1) := by
  rw [find_python_extension_type_of_present rt s info exten_type pymodule wrapped h]
  by_cases hn : wrapped = Py_None
  · exact ⟨s, by simp [hn]⟩
  · refine ⟨(find_loop rt wrapped (rt.module_dict pymodule) s).2, ?_⟩
    simp only [bne_iff_ne, ne_eq, hn, not_false_eq_true, if_true, if_false]
    rw [← find_loop_fst rt wrapped (rt.module_dict pymodule) s]

theorem find_python_extension_type_frame (rt : Runtime) (s : State) (info : PeasPluginInfo)
    (exten_type : GType) (pymodule : PyObject) (r : Option PyObject) (s1 : State)
    (h : find_python_extension_type rt s info exten_type pymodule = .ok (r, s1)) :
    ∃ e tr, s1 = { s with err_occurred := e, trace := tr } := by
  cases hp : rt.pytype exten_type with
  | none => rw [find_python_extension_type_of_absent rt s info exten_type pymodule hp] at h; cases h
  | some wrapped =>
    rw [find_python_extension_type_of_present rt s info exten_type pymodule wrapped hp] at h
    by_cases hn : wrapped = Py_None
    · simp [hn] at h
      exact ⟨s.err_occurred, s.trace, by rw [← h.2]⟩
    · simp only [bne_iff_ne, ne_eq, hn, not_false_eq_true, if_true, Except.ok.injEq] at h
      obtain ⟨e, tr, hf⟩ := find_loop_frame rt wrapped (rt.module_dict pymodule) s
      rw [h] at hf
      exact ⟨e, tr, hf⟩

theorem first_matching_type_some (rt : Runtime) (wrapped : PyObject)
    (locals : List (PyObject × PyObject)) (v : PyObject)
    (h : first_matching_type rt wrapped locals = some v) :
    (∃ key, (key, v) ∈ locals) ∧ rt.PyType_Check v = true ∧ rt.PyObject_IsSubclass v wrapped = 1 := by
  unfold first_matching_type at h
  cases hfind : locals.find?
      (fun e => rt.PyType_Check e.2 && decide (rt.PyObject_IsSubclass e.2 wrapped = 1)) with
  | none => rw [hfind] at h; cases h
  | some e =>
  obtain ⟨key, value⟩ := e
  rw [hfind] at h
  have hv : value = v := by simpa using h
  subst hv
  have hmem := List.mem_of_find?_eq_some hfind
  have hp := List.find?_some hfind
  simp only [Bool.and_eq_true, decide_eq_true_eq] at hp
  exact ⟨⟨key, hmem⟩, hp.1, hp.2⟩

/-- C1. With the `pytype` attribute of the wrapped interface absent (the
attribute lookup returns `NULL`), `find_python_extension_type` does not return
"no type": it skips the loop and then releases the `NULL` pointer with
`Py_DECREF`, which is a fault. -/
theorem find_python_extension_type_absent_pytype_faults :
    find_python_extension_type sample_runtime (sample_state (registry_of 7 1)) 7 11 1 =
      .error Fault.null_deref := by
  rfl

/-- C2, as stated, fails: module 1 holds the wrapped type 100 itself (imported
by name) ahead of its plugin type 200, the subclass test accepts a type
against itself, and resolution returns the wrapped type. -/
theorem find_python_extension_type_returns_wrapped_type :
    sample_runtime.pytype 10 = some 100 ∧
    sample_runtime.module_dict 1 = [(50, 60), (51, 100), (52, 200)] ∧
    find_python_extension_type sample_runtime (sample_state (registry_of 7 1)) 7 10 1 =
      .ok (some 100, sample_state (registry_of 7 1)) := by
  exact ⟨rfl, rfl, rfl⟩

/-- C2, amended. The type selected by resolution is a value of the module
dictionary that is a type object and for which the subclass test against the
wrapped type reports true; there is no test of identity, so an entry that is
the wrapped type itself is the one returned when it is the first entry the
subclass test accepts. -/
theorem find_python_extension_type_selects_accepted_entry (rt : Runtime) (s : State)
    (info : PeasPluginInfo) (exten_type : GType) (pymodule : PyObject) :
    (∀ v s1, find_python_extension_type rt s info exten_type pymodule = .ok (some v, s1) →
      ∃ wrapped, rt.pytype exten_type = some wrapped ∧ wrapped ≠ Py_None ∧
        (∃ key, (key, v) ∈ rt.module_dict pymodule) ∧
        rt.PyType_Check v = true ∧ rt.PyObject_IsSubclass v wrapped = 1) ∧
    (∀ wrapped, rt.pytype exten_type = some wrapped → wrapped ≠ Py_None →
      first_matching_type rt wrapped (rt.module_dict pymodule) = some wrapped →
      ∃ s1, find_python_extension_type rt s info exten_type pymodule = .ok (some wrapped, s1)) := by
  constructor
  · intro v s1 h
    cases hp : rt.pytype exten_type with
    | none => rw [find_python_extension_type_of_absent rt s info exten_type pymodule hp] at h; cases h
    | some wrapped =>
      obtain ⟨s2, h2⟩ := find_python_extension_type_first rt s info exten_type pymodule wrapped hp
      rw [h2] at h
      by_cases hn : wrapped = Py_None
      · simp [hn] at h
      · simp only [hn, if_false, Except.ok.injEq, Prod.mk.injEq] at h
        exact ⟨wrapped, rfl, hn, first_matching_type_some rt wrapped _ v h.1⟩
  · intro wrapped hp hn hfirst
    obtain ⟨s2, h2⟩ := find_python_extension_type_first rt s info exten_type pymodule wrapped hp
    refine ⟨s2, ?_⟩
    rw [h2, if_neg hn, hfirst]

theorem find_python_extension_type_selects_accepted_entry_witness :
    (∃ wrapped, sample_runtime.pytype 10 = some wrapped ∧ wrapped ≠ Py_None ∧
      (∃ key, (key, 200) ∈ sample_runtime.module_dict 2) ∧
      sample_runtime.PyType_Check 200 = true ∧ sample_runtime.PyObject_IsSubclass 200 wrapped = 1) ∧
    (∃ s1, find_python_extension_type sample_runtime (sample_state (registry_of 7 1)) 7 10 1 =
      .ok (some 100, s1)) :=
  ⟨(find_python_extension_type_selects_accepted_entry sample_runtime
      (sample_state (registry_of 7 2)) 7 10 2).1 200 (sample_state (registry_of 7 2)) rfl,
   (find_python_extension_type_selects_accepted_entry sample_runtime
      (sample_state (registry_of 7 1)) 7 10 1).2 100 rfl (by decide) rfl⟩

/-! ## Creation -/

theorem modify_append_length {α : Type} (f : α → α) (l : List α) (x : α) :
    List.modify f l.length (l ++ [x]) = l ++ [f x] := by
  induction l with
  | nil => rfl
  | cons a l ih => simp [ih]

theorem create_extension_outcome (rt : Runtime) (s : State) (info : PeasPluginInfo)
    (exten_type : GType) (parameters : List GParameter) (pyinfo : PythonInfo)
    (resolved : Option PyObject) (s2 : State)
    (hl : g_hash_table_lookup s.loaded_plugins info = some pyinfo)
    (hf : find_python_extension_type rt (PyGILState_Ensure s) info exten_type pyinfo.module =
      .ok (resolved, s2)) :
    ∃ res s1, peas_plugin_loader_python_create_extension rt s info exten_type parameters =
        .ok (res, s1) ∧
      s1.gil_depth = s.gil_depth ∧ s1.gil_ensured = s.gil_ensured + 1 ∧
      s1.gil_released = s.gil_released + 1 ∧ s1.loaded_plugins = s.loaded_plugins ∧
      (creation_steps_succeed rt exten_type parameters resolved →
        res = some s.heap.length ∧
        ∃ pytype, resolved = some pytype ∧
        s1.heap = s.heap ++ [{ g_type := rt.pyg_type_from_object pytype, ref_count := 1,
                               extension_type := some exten_type, plugin_info := some info }]) ∧
      (¬ creation_steps_succeed rt exten_type parameters resolved → res = none) ∧
      (resolved = none → s1.heap = s.heap) ∧
      (∀ pytype, resolved = some pytype →
        rt.pyg_type_from_object pytype ≠ G_TYPE_INVALID →
        rt.g_type_is_a (rt.pyg_type_from_object pytype) exten_type = true →
        rt.constructs (rt.pyg_type_from_object pytype) parameters = true →
        rt.set_plugin_info (rt.pyg_type_from_object pytype) = -1 →
        s1.heap = s.heap ++ [{ g_type := rt.pyg_type_from_object pytype, ref_count := 0,
                               extension_type := some exten_type, plugin_info := none }]) := by
  obtain ⟨e0, tr0, hs2⟩ := find_python_extension_type_frame rt _ info exten_type _ _ _ hf
  subst hs2
  unfold peas_plugin_loader_python_create_extension
  rw [hl]
  simp only
  rw [hf]
  cases resolved with
  | none =>
    refine ⟨none, _, rfl, ?_⟩
    simp [PyGILState_Release, PyGILState_Ensure, creation_steps_succeed]
  | some pytype =>
    simp only
    by_cases hv : rt.pyg_type_from_object pytype = G_TYPE_INVALID
    · refine ⟨none, _, by rw [if_pos hv], ?_⟩
      simp [PyGILState_Release, PyGILState_Ensure, creation_steps_succeed, hv]
    · rw [if_neg hv]
      by_cases ha : rt.g_type_is_a (rt.pyg_type_from_object pytype) exten_type = true
      · simp only [ha, Bool.not_true, Bool.false_eq_true, if_false]
        by_cases hc : rt.constructs (rt.pyg_type_from_object pytype) parameters = true
        · simp only [g_object_newv, hc, if_true, PyObject_SetAttrString]
          by_cases hset : rt.set_plugin_info (rt.pyg_type_from_object pytype) = -1
          · simp only [hset, if_true]
            refine ⟨none, _, rfl, ?_⟩
            simp [PyGILState_Release, PyGILState_Ensure, creation_steps_succeed, hv, ha, hc, hset,
              Py_DECREF_wrapper, g_object_unref, g_warning, PyErr_Occurred, PyErr_Print,
              pygobject_new, g_object_ref, g_object_set_data, modify_append_length]
          · simp only [hset, if_false]
            refine ⟨_, _, rfl, ?_⟩
            simp [PyGILState_Release, PyGILState_Ensure, creation_steps_succeed, hv, ha, hc, hset,
              Py_DECREF_wrapper, g_object_unref,
              pygobject_new, g_object_ref, g_object_set_data, modify_append_length]
        · simp only [g_object_newv, hc]
          refine ⟨none, _, rfl, ?_⟩
          simp [PyGILState_Release, PyGILState_Ensure, creation_steps_succeed, hv, ha, hc]
      · simp only [ha, Bool.not_false, if_true]
        refine ⟨none, _, rfl, ?_⟩
        simp [PyGILState_Release, PyGILState_Ensure, creation_steps_succeed, hv, ha, g_warn_if_fail,
          g_warning]

theorem create_extension_inv (rt : Runtime) (s : State) (info : PeasPluginInfo)
    (exten_type : GType) (parameters : List GParameter) (res : Option Nat) (s1 : State)
    (h : peas_plugin_loader_python_create_extension rt s info exten_type parameters = .ok (res, s1)) :
    ∃ pyinfo resolved s2, g_hash_table_lookup s.loaded_plugins info = some pyinfo ∧
      find_python_extension_type rt (PyGILState_Ensure s) info exten_type pyinfo.module =
        .ok (resolved, s2) := by
  cases hl : g_hash_table_lookup s.loaded_plugins info with
  | none =>
    unfold peas_plugin_loader_python_create_extension at h
    rw [hl] at h
    cases h
  | some pyinfo =>
    cases hf : find_python_extension_type rt (PyGILState_Ensure s) info exten_type pyinfo.module with
    | error e =>
      unfold peas_plugin_loader_python_create_extension at h
      rw [hl] at h
      simp only at h
      rw [hf] at h
      cases h
    | ok r =>
      obtain ⟨resolved, s2⟩ := r
      exact ⟨pyinfo, resolved, s2, rfl, hf⟩

theorem create_extension_success (rt : Runtime) (s : State) (info : PeasPluginInfo)
    (exten_type : GType) (parameters : List GParameter) (o : Nat) (s1 : State)
    (h : peas_plugin_loader_python_create_extension rt s info exten_type parameters =
      .ok (some o, s1)) :
    o = s.heap.length ∧
    ∃ t, s1.heap = s.heap ++ [{ g_type := t, ref_count := 1,
                                extension_type := some exten_type, plugin_info := some info }] := by
  obtain ⟨pyinfo, resolved, s2, hl, hf⟩ := create_extension_inv rt s info exten_type parameters _ _ h
  obtain ⟨res, s3, hc, -, -, -, -, hyes, hno, -, -⟩ :=
    create_extension_outcome rt s info exten_type parameters pyinfo resolved s2 hl hf
  rw [h] at hc
  simp only [Except.ok.injEq, Prod.mk.injEq] at hc
  obtain ⟨hres, hs⟩ := hc
  subst hres hs
  by_cases hst : creation_steps_succeed rt exten_type parameters resolved
  · obtain ⟨ho, pytype, -, hheap⟩ := hyes hst
    exact ⟨by simpa using ho, _, hheap⟩
  · have := hno hst
    cases this

/-- C3. `peas_plugin_loader_python_create_extension` returns an object exactly
when the plugin has a module in which a type is resolved and the later steps
all succeed (valid native type, is-a the interface, construction, setting
`plugin_info`). Once resolution has returned, the function returns, and
without all the steps it returns `NULL`; when no type resolves the heap of
native objects is untouched, and when the attribute cannot be set the object
that was constructed is left with no reference. -/
theorem create_extension_returns_object_iff (rt : Runtime) (s : State) (info : PeasPluginInfo)
    (exten_type : GType) (parameters : List GParameter) :
    ((∃ o s1, peas_plugin_loader_python_create_extension rt s info exten_type parameters =
        .ok (some o, s1)) ↔
      ∃ pyinfo resolved s2, g_hash_table_lookup s.loaded_plugins info = some pyinfo ∧
        find_python_extension_type rt (PyGILState_Ensure s) info exten_type pyinfo.module =
          .ok (resolved, s2) ∧
        creation_steps_succeed rt exten_type parameters resolved) ∧
    (∀ pyinfo resolved s2, g_hash_table_lookup s.loaded_plugins info = some pyinfo →
      find_python_extension_type rt (PyGILState_Ensure s) info exten_type pyinfo.module =
        .ok (resolved, s2) →
      ∃ res s1, peas_plugin_loader_python_create_extension rt s info exten_type parameters =
          .ok (res, s1) ∧
        (¬ creation_steps_succeed rt exten_type parameters resolved → res = none) ∧
        (resolved = none → s1.heap = s.heap) ∧
        (∀ pytype, resolved = some pytype →
          rt.pyg_type_from_object pytype ≠ G_TYPE_INVALID →
          rt.g_type_is_a (rt.pyg_type_from_object pytype) exten_type = true →
          rt.constructs (rt.pyg_type_from_object pytype) parameters = true →
          rt.set_plugin_info (rt.pyg_type_from_object pytype) = -1 →
          s1.heap = s.heap ++ [{ g_type := rt.pyg_type_from_object pytype, ref_count := 0,
                                 extension_type := some exten_type, plugin_info := none }])) := by
  constructor
  · constructor
    · rintro ⟨o, s1, h⟩
      obtain ⟨pyinfo, resolved, s2, hl, hf⟩ :=
        create_extension_inv rt s info exten_type parameters _ _ h
      refine ⟨pyinfo, resolved, s2, hl, hf, ?_⟩
      obtain ⟨res, s3, hc, -, -, -, -, -, hno, -, -⟩ :=
        create_extension_outcome rt s info exten_type parameters pyinfo resolved s2 hl hf
      rw [h] at hc
      simp only [Except.ok.injEq, Prod.mk.injEq] at hc
      by_contra hst
      have := hno hst
      rw [← hc.1] at this
      cases this
    · rintro ⟨pyinfo, resolved, s2, hl, hf, hst⟩
      obtain ⟨res, s3, hc, -, -, -, -, hyes, -, -, -⟩ :=
        create_extension_outcome rt s info exten_type parameters pyinfo resolved s2 hl hf
      refine ⟨s.heap.length, s3, ?_⟩
      rw [hc, (hyes hst).1]
  · intro pyinfo resolved s2 hl hf
    obtain ⟨res, s3, hc, -, -, -, -, -, hno, hnone, hset⟩ :=
      create_extension_outcome rt s info exten_type parameters pyinfo resolved s2 hl hf
    exact ⟨res, s3, hc, hno, hnone, hset⟩

/-- C4. Two successive successful creations for the same descriptor and
interface return two distinct objects; each has a reference count of exactly 1
and `plugin_info` set to the descriptor when its creation returns, and the
second creation leaves the first object as it was. -/
theorem create_extension_twice (rt : Runtime) (s : State) (info : PeasPluginInfo)
    (exten_type : GType) (p1 p2 : List GParameter) (o1 o2 : Nat) (s1 s2 : State)
    (h1 : peas_plugin_loader_python_create_extension rt s info exten_type p1 = .ok (some o1, s1))
    (h2 : peas_plugin_loader_python_create_extension rt s1 info exten_type p2 = .ok (some o2, s2)) :
    o1 ≠ o2 ∧
    (s1.heap[o1]?).map GObject.ref_count = some 1 ∧
    (s2.heap[o2]?).map GObject.ref_count = some 1 ∧
    (s1.heap[o1]?).map GObject.plugin_info = some (some info) ∧
    (s2.heap[o2]?).map GObject.plugin_info = some (some info) ∧
    s2.heap[o1]? = s1.heap[o1]? := by
  obtain ⟨ho1, t1, hh1⟩ := create_extension_success rt s info exten_type p1 o1 s1 h1
  obtain ⟨ho2, t2, hh2⟩ := create_extension_success rt s1 info exten_type p2 o2 s2 h2
  have hlen : s1.heap.length = s.heap.length + 1 := by rw [hh1]; simp
  subst ho1 ho2
  refine ⟨by omega, ?_, ?_, ?_, ?_, ?_⟩
  · rw [hh1]; simp
  · rw [hh2]; simp
  · rw [hh1]; simp
  · rw [hh2]; simp
  · rw [hh2, List.getElem?_append_left (by omega)]

theorem create_extension_returns_object_iff_witness :
    (∃ o s1, peas_plugin_loader_python_create_extension sample_runtime
      (sample_state (registry_of 7 2)) 7 10 [] = .ok (some o, s1)) ∧
    (∃ res s1, peas_plugin_loader_python_create_extension sample_runtime
      (sample_state (registry_of 7 1)) 7 10 [] = .ok (res, s1) ∧ res = none) :=
  ⟨(create_extension_returns_object_iff sample_runtime (sample_state (registry_of 7 2)) 7 10 []).1.2
      ⟨{ module := 2 }, some 200, PyGILState_Ensure (sample_state (registry_of 7 2)), rfl, rfl,
        200, rfl, by decide, rfl, rfl, by decide⟩,
   by
    obtain ⟨res, s1, h, hno, -⟩ :=
      (create_extension_returns_object_iff sample_runtime (sample_state (registry_of 7 1)) 7 10 []).2
        { module := 1 } (some 100) (PyGILState_Ensure (sample_state (registry_of 7 1))) rfl rfl
    refine ⟨res, s1, h, hno ?_⟩
    rintro ⟨pytype, hp, -, -, hc, -⟩
    cases hp
    revert hc
    decide⟩

theorem create_extension_twice_witness :
    peas_plugin_loader_python_create_extension sample_runtime (sample_state (registry_of 7 2))
      7 10 [] = .ok (some 0, sample_created_once) ∧
    peas_plugin_loader_python_create_extension sample_runtime sample_created_once
      7 10 [] = .ok (some 1, sample_created_twice) ∧
    (0 : Nat) ≠ 1 ∧
    (sample_created_once.heap[0]?).map GObject.ref_count = some 1 ∧
    (sample_created_twice.heap[1]?).map GObject.ref_count = some 1 ∧
    (sample_created_once.heap[0]?).map GObject.plugin_info = some (some 7) ∧
    (sample_created_twice.heap[1]?).map GObject.plugin_info = some (some 7) ∧
    sample_created_twice.heap[0]? = sample_created_once.heap[0]? :=
  ⟨rfl, rfl, create_extension_twice sample_runtime (sample_state (registry_of 7 2)) 7 10 [] []
    0 1 sample_created_once sample_created_twice rfl rfl⟩

/-! ## The registry, loading and unloading -/

theorem lookup_isSome_iff (t : GHashTable) (key : PeasPluginInfo) :
    (g_hash_table_lookup t key).isSome = true ↔ key ∈ t.entries.map Prod.fst := by
  simp [g_hash_table_lookup]

theorem filter_key_length (l : List (PeasPluginInfo × PythonInfo)) (key : PeasPluginInfo)
    (hn : (l.map Prod.fst).Nodup) (hk : key ∈ l.map Prod.fst) :
    (l.filter (fun e => e.1 == key)).length = 1 := by
  induction l with
  | nil => simp at hk
  | cons a rest ih =>
    obtain ⟨k, v⟩ := a
    rw [List.map_cons, List.nodup_cons] at hn
    by_cases hkk : k = key
    · subst hkk
      have : rest.filter (fun e => e.1 == k) = [] := by
        rw [List.filter_eq_nil_iff]
        intro e he
        have : e.1 ≠ k := fun h => hn.1 (List.mem_map.2 ⟨e, he, h⟩)
        simpa using this
      simp [List.filter_cons, this]
    · have hk2 : key ∈ rest.map Prod.fst := by
        rw [List.map_cons, List.mem_cons] at hk
        rcases hk with h | h
        · exact absurd h.symm hkk
        · exact h
      simp [List.filter_cons, hkk, ih hn.2 hk2]

theorem lookup_insert_self (t : GHashTable) (key : PeasPluginInfo) (value : PythonInfo) :
    g_hash_table_lookup (g_hash_table_insert t key value) key = some value := by
  simp [g_hash_table_lookup, g_hash_table_insert]

theorem add_module_path_frame (s : State) (module_path : Option String) :
    ∃ sp tr e, (peas_plugin_loader_python_add_module_path s module_path).2 =
        { s with sys_path := sp, trace := tr, err_occurred := e } ∧
      tr.filter is_hook_call = s.trace.filter is_hook_call ∧
      ((peas_plugin_loader_python_add_module_path s module_path).1 = true →
        e = s.err_occurred) := by
  unfold peas_plugin_loader_python_add_module_path
  cases module_path with
  | none =>
    exact ⟨s.sys_path, s.trace ++ [Event.warning "module_path != NULL"], s.err_occurred, rfl,
      by simp [is_hook_call], fun _ => rfl⟩
  | some path =>
    cases hp : s.sys_path with
    | none =>
      refine ⟨s.sys_path, s.trace, s.err_occurred, ?_, rfl, fun _ => rfl⟩
      show _ = s
      simp only [hp]
    | some pathlist =>
      simp only
      by_cases hstr : s.py_string_fails path = true
      · refine ⟨s.sys_path, s.trace, true, ?_, rfl, ?_⟩
        · simp [hstr, hp]
        · simp [hstr]
      · by_cases hraise : s.contains_raises pathlist path = true
        · refine ⟨s.sys_path, s.trace, true, ?_, rfl, ?_⟩
          · simp [hstr, hp, PySequence_Contains, hraise]
          · simp [hstr, PySequence_Contains, hraise]
        · by_cases hmem : path ∈ pathlist
          · refine ⟨s.sys_path, s.trace, s.err_occurred, ?_, rfl, fun _ => rfl⟩
            show _ = s
            simp [hstr, PySequence_Contains, hraise, hmem]
          · by_cases hins : s.insert_fails pathlist path = true
            · refine ⟨s.sys_path, s.trace, true, ?_, rfl, ?_⟩
              · simp [hstr, hp, PySequence_Contains, hraise, hmem, PyList_Insert_front, hins]
              · simp [hstr, PySequence_Contains, hraise, hmem, PyList_Insert_front, hins]
            · refine ⟨some (path :: pathlist), s.trace, s.err_occurred, ?_, rfl, fun _ => rfl⟩
              simp [hstr, PySequence_Contains, hraise, hmem, PyList_Insert_front, hins]

theorem load_of_loaded (rt : Runtime) (s : State) (info : PeasPluginInfo)
    (h : (g_hash_table_lookup s.loaded_plugins info).isSome = true) :
    peas_plugin_loader_python_load rt s info = (true, s) := by
  simp [peas_plugin_loader_python_load, h]

/-- What a load of a descriptor without an entry does: it fails, leaving the
registry as it was, when the module directory cannot be registered or the import
fails, and otherwise stores the imported module. -/
theorem load_of_not_loaded (rt : Runtime) (s : State) (info : PeasPluginInfo)
    (h : g_hash_table_lookup s.loaded_plugins info = none) :
    ((peas_plugin_loader_python_add_module_path (PyGILState_Ensure s) (rt.module_dir info)).1 = false →
      (peas_plugin_loader_python_load rt s info).1 = false ∧
      (peas_plugin_loader_python_load rt s info).2.loaded_plugins = s.loaded_plugins) ∧
    ((peas_plugin_loader_python_add_module_path (PyGILState_Ensure s) (rt.module_dir info)).1 = true →
      rt.find_module
        ((peas_plugin_loader_python_add_module_path (PyGILState_Ensure s)
          (rt.module_dir info)).2.sys_path.getD []) (rt.module_name info) = none →
      (peas_plugin_loader_python_load rt s info).1 = false ∧
      (peas_plugin_loader_python_load rt s info).2.loaded_plugins = s.loaded_plugins) ∧
    (∀ pymodule,
      (peas_plugin_loader_python_add_module_path (PyGILState_Ensure s) (rt.module_dir info)).1 = true →
      rt.find_module
        ((peas_plugin_loader_python_add_module_path (PyGILState_Ensure s)
          (rt.module_dir info)).2.sys_path.getD []) (rt.module_name info) = some pymodule →
      (peas_plugin_loader_python_load rt s info).1 = true ∧
      (peas_plugin_loader_python_load rt s info).2.loaded_plugins =
        g_hash_table_insert s.loaded_plugins info { module := pymodule }) := by
  obtain ⟨sp, tr, e, hframe, -, hpathok⟩ := add_module_path_frame (PyGILState_Ensure s) (rt.module_dir info)
  unfold peas_plugin_loader_python_load
  simp only [h, Option.isSome_none, Bool.false_eq_true, if_false]
  cases hadd : peas_plugin_loader_python_add_module_path (PyGILState_Ensure s) (rt.module_dir info) with
  | mk ok s2 =>
    rw [hadd] at hframe
    simp only at hframe
    subst hframe
    cases ok with
    | false =>
      simp only [Bool.false_eq_true, false_implies, implies_true, and_true, true_and]
      intro _
      simp only [g_warning, PyErr_Occurred, PyErr_Print, PyGILState_Release, PyGILState_Ensure]
      split <;> simp
    | true =>
      simp only [Bool.true_eq_false, false_implies, true_and, true_implies]
      unfold PyImport_ImportModuleEx
      constructor
      · intro himp
        simp only [PyGILState_Ensure, Option.getD] at himp ⊢
        simp [himp, PyErr_Print, PyGILState_Release]
      · intro pymodule himp
        simp only [PyGILState_Ensure, Option.getD] at himp ⊢
        simp [himp, PyGILState_Release, add_python_info]

/-- C5. When a load of a descriptor succeeds, an immediately following second
load of the same descriptor returns success and leaves the whole state as the
first load left it (so it imports nothing and does not touch the search path),
and the registry then holds exactly one entry for the descriptor. -/
theorem load_twice (rt : Runtime) (s : State) (info : PeasPluginInfo)
    (h : (peas_plugin_loader_python_load rt s info).1 = true) :
    peas_plugin_loader_python_load rt (peas_plugin_loader_python_load rt s info).2 info =
      (true, (peas_plugin_loader_python_load rt s info).2) ∧
    ((peas_plugin_loader_python_load rt s info).2.loaded_plugins.entries.filter
      (fun e => e.1 == info)).length = 1 := by
  have key : (g_hash_table_lookup (peas_plugin_loader_python_load rt s info).2.loaded_plugins
      info).isSome = true := by
    cases hl : g_hash_table_lookup s.loaded_plugins info with
    | some pyinfo =>
      rw [load_of_loaded rt s info (by simp [hl])]
      simp [hl]
    | none =>
      obtain ⟨hpath, himport, hok⟩ := load_of_not_loaded rt s info hl
      cases hadd : (peas_plugin_loader_python_add_module_path (PyGILState_Ensure s)
          (rt.module_dir info)).1 with
      | false => rw [(hpath hadd).1] at h; cases h
      | true =>
        cases himp : rt.find_module
            ((peas_plugin_loader_python_add_module_path (PyGILState_Ensure s)
              (rt.module_dir info)).2.sys_path.getD []) (rt.module_name info) with
        | none => rw [(himport hadd himp).1] at h; cases h
        | some pymodule =>
          rw [(hok pymodule hadd himp).2, lookup_insert_self]
          rfl
  refine ⟨load_of_loaded rt _ info key, ?_⟩
  exact filter_key_length _ info
    (peas_plugin_loader_python_load rt s info).2.loaded_plugins.nodup
    ((lookup_isSome_iff _ info).1 key)

theorem load_twice_witness :
    (peas_plugin_loader_python_load sample_runtime (sample_state GHashTable.empty) 7).1 = true ∧
    peas_plugin_loader_python_load sample_runtime
        (peas_plugin_loader_python_load sample_runtime (sample_state GHashTable.empty) 7).2 7 =
      (true, (peas_plugin_loader_python_load sample_runtime (sample_state GHashTable.empty) 7).2) ∧
    ((peas_plugin_loader_python_load sample_runtime
      (sample_state GHashTable.empty) 7).2.loaded_plugins.entries.filter
        (fun e => e.1 == 7)).length = 1 :=
  ⟨rfl, load_twice sample_runtime (sample_state GHashTable.empty) 7 rfl⟩

theorem add_module_path_trace (s : State) (module_path : Option String) :
    ∃ w, (peas_plugin_loader_python_add_module_path s module_path).2.trace = s.trace ++ w ∧
      Event.process_exit ∉ w := by
  unfold peas_plugin_loader_python_add_module_path
  cases module_path with
  | none => exact ⟨[Event.warning "module_path != NULL"], rfl, by simp⟩
  | some path =>
    cases hp : s.sys_path with
    | none => exact ⟨[], by simp, by simp⟩
    | some pathlist =>
      refine ⟨[], ?_, by simp⟩
      simp only
      by_cases hstr : s.py_string_fails path = true
      · simp [hstr]
      · by_cases hraise : s.contains_raises pathlist path = true
        · simp [hstr, PySequence_Contains, hraise]
        · by_cases hmem : path ∈ pathlist
          · simp [hstr, PySequence_Contains, hraise, hmem]
          · by_cases hins : s.insert_fails pathlist path = true
            · simp [hstr, PySequence_Contains, hraise, hmem, PyList_Insert_front, hins]
            · simp [hstr, PySequence_Contains, hraise, hmem, PyList_Insert_front, hins]

/-- Whether a load ends the host process: it does not when no printed error is
`SystemExit`, and it does when the import fails with `SystemExit`, the error
printed at the position of the trace that follows the import. -/
theorem load_exited (rt : Runtime) (s : State) (info : PeasPluginInfo)
    (h : g_hash_table_lookup s.loaded_plugins info = none) :
    ((∀ n, s.exit_at n = false) →
      (exited (peas_plugin_loader_python_load rt s info).2 ↔ exited s)) ∧
    ((peas_plugin_loader_python_add_module_path (PyGILState_Ensure s) (rt.module_dir info)).1 = true →
      rt.find_module
        ((peas_plugin_loader_python_add_module_path (PyGILState_Ensure s)
          (rt.module_dir info)).2.sys_path.getD []) (rt.module_name info) = none →
      s.exit_at ((peas_plugin_loader_python_add_module_path (PyGILState_Ensure s)
          (rt.module_dir info)).2.trace.length + 1) = true →
      exited (peas_plugin_loader_python_load rt s info).2) := by
  obtain ⟨sp, tr, e, hframe, -, -⟩ := add_module_path_frame (PyGILState_Ensure s) (rt.module_dir info)
  obtain ⟨w, hw, hwx⟩ := add_module_path_trace (PyGILState_Ensure s) (rt.module_dir info)
  unfold peas_plugin_loader_python_load
  simp only [h, Option.isSome_none, Bool.false_eq_true, if_false]
  cases hadd : peas_plugin_loader_python_add_module_path (PyGILState_Ensure s) (rt.module_dir info) with
  | mk ok s2 =>
    rw [hadd] at hframe hw
    simp only at hframe hw
    subst hframe
    have htr : tr = s.trace ++ w := hw
    subst htr
    cases ok with
    | false =>
      refine ⟨?_, fun hc => by cases hc⟩
      intro hx
      simp only [g_warning, PyErr_Occurred, PyErr_Print, PyGILState_Release, PyGILState_Ensure,
        exited]
      split <;> simp [printed_event, hx, hwx]
    | true =>
      unfold PyImport_ImportModuleEx
      constructor
      · intro hx
        simp only [PyGILState_Ensure, exited]
        split <;> rename_i heq <;> split at heq <;>
          simp only [Prod.mk.injEq] at heq <;> obtain ⟨-, hs3⟩ := heq <;> subst hs3 <;>
          simp [PyErr_Print, PyGILState_Release, add_python_info, printed_event, hx, hwx]
      · intro _ himp hx
        simp only [PyGILState_Ensure, Option.getD, List.length_append] at himp hx ⊢
        have hx2 : s.exit_at (s.trace.length + (w.length + 1)) = true := by
          rw [← Nat.add_assoc]
          exact hx
        simp [himp, PyErr_Print, PyGILState_Release, exited, printed_event, hx2]

/-- C6, as stated, fails: the descriptor 9 has no entry and the import of its
module `quitter` fails with `SystemExit`; the call of `PyErr_Print` in
`peas_plugin_loader_python_load` then ends the host process, so the load
reports nothing to its caller and the entry of the descriptor 7 is gone with
the process. -/
theorem load_import_failure_ends_process :
    g_hash_table_lookup sample_exiting.loaded_plugins 9 = none ∧
    g_hash_table_lookup sample_exiting.loaded_plugins 7 = some { module := 2 } ∧
    sample_runtime_quitting.find_module
      ((peas_plugin_loader_python_add_module_path (PyGILState_Ensure sample_exiting)
        (sample_runtime_quitting.module_dir 9)).2.sys_path.getD [])
      (sample_runtime_quitting.module_name 9) = none ∧
    ¬ exited sample_exiting ∧
    (peas_plugin_loader_python_load sample_runtime_quitting sample_exiting 9).2.trace =
      [Event.imported "quitter", Event.process_exit] ∧
    exited (peas_plugin_loader_python_load sample_runtime_quitting sample_exiting 9).2 := by
  refine ⟨rfl, rfl, rfl, ?_, rfl, ?_⟩
  · simp [exited, sample_exiting, sample_state]
  · have h : (peas_plugin_loader_python_load sample_runtime_quitting sample_exiting 9).2.trace =
        [Event.imported "quitter", Event.process_exit] := rfl
    simp [exited, h]

/-- C6, amended. For a descriptor without an entry, when registering the module
directory fails, or the directory is registered and the import fails: while no
error that is printed is `SystemExit`, the load does not end the host process
and returns failure, the registry is left as it was, and so the descriptor
still has no entry; when the import fails with `SystemExit`, the load ends the
host process. -/
theorem load_failure_unless_exit (rt : Runtime) (s : State) (info : PeasPluginInfo)
    (hnot : g_hash_table_lookup s.loaded_plugins info = none)
    (hfail :
      (peas_plugin_loader_python_add_module_path (PyGILState_Ensure s) (rt.module_dir info)).1 = false ∨
      rt.find_module
        ((peas_plugin_loader_python_add_module_path (PyGILState_Ensure s)
          (rt.module_dir info)).2.sys_path.getD []) (rt.module_name info) = none) :
    ((∀ n, s.exit_at n = false) →
      (exited (peas_plugin_loader_python_load rt s info).2 ↔ exited s) ∧
      (peas_plugin_loader_python_load rt s info).1 = false ∧
      (peas_plugin_loader_python_load rt s info).2.loaded_plugins = s.loaded_plugins ∧
      g_hash_table_lookup (peas_plugin_loader_python_load rt s info).2.loaded_plugins info = none) ∧
    ((peas_plugin_loader_python_add_module_path (PyGILState_Ensure s) (rt.module_dir info)).1 = true →
      s.exit_at ((peas_plugin_loader_python_add_module_path (PyGILState_Ensure s)
          (rt.module_dir info)).2.trace.length + 1) = true →
      exited (peas_plugin_loader_python_load rt s info).2) := by
  obtain ⟨hpath, himport, -⟩ := load_of_not_loaded rt s info hnot
  obtain ⟨hkeep, hexit⟩ := load_exited rt s info hnot
  have main : (peas_plugin_loader_python_load rt s info).1 = false ∧
      (peas_plugin_loader_python_load rt s info).2.loaded_plugins = s.loaded_plugins := by
    cases hadd : (peas_plugin_loader_python_add_module_path (PyGILState_Ensure s)
        (rt.module_dir info)).1 with
    | false => exact hpath hadd
    | true =>
      rcases hfail with hf | hf
      · rw [hadd] at hf; cases hf
      · exact himport hadd hf
  refine ⟨fun hx => ⟨hkeep hx, main.1, main.2, by rw [main.2]; exact hnot⟩, ?_⟩
  intro hadd hx
  rcases hfail with hf | hf
  · rw [hadd] at hf; cases hf
  · exact hexit hadd hf hx

theorem load_failure_unless_exit_witness :
    g_hash_table_lookup (sample_state (registry_of 7 2)).loaded_plugins 8 = none ∧
    sample_runtime.module_name 8 = "nonexistent" ∧
    (peas_plugin_loader_python_load sample_runtime (sample_state (registry_of 7 2)) 8).1 = false ∧
    (peas_plugin_loader_python_load sample_runtime (sample_state (registry_of 7 2)) 8).2.loaded_plugins =
      (sample_state (registry_of 7 2)).loaded_plugins ∧
    g_hash_table_lookup
      (peas_plugin_loader_python_load sample_runtime (sample_state (registry_of 7 2)) 8).2.loaded_plugins
      8 = none :=
  ⟨rfl, rfl,
    ((load_failure_unless_exit sample_runtime (sample_state (registry_of 7 2)) 8 rfl (Or.inr rfl)).1
      (fun _ => rfl)).2⟩

theorem internal_python_hook_effect (rt : Runtime) (s : State) (name : String) :
    (internal_python_hook rt s name).loaded_plugins = s.loaded_plugins ∧
    (internal_python_hook rt s name).trace.filter is_hook_call =
      s.trace.filter is_hook_call ++ [Event.call_method s.hooks name] ∧
    (internal_python_hook rt s name).gil_depth = s.gil_depth ∧
    (internal_python_hook rt s name).gil_ensured = s.gil_ensured + 1 ∧
    (internal_python_hook rt s name).gil_released = s.gil_released + 1 := by
  unfold internal_python_hook PyObject_CallMethod
  cases hx : s.exit_at (s.trace.length + 1) <;> cases hh : s.hooks <;>
    cases hr : rt.hook_raises name <;> cases he : s.err_occurred <;>
    simp [PyGILState_Ensure, PyGILState_Release, PyErr_Occurred, PyErr_Print, printed_event,
      hx, hh, hr, he, is_hook_call]

theorem load_no_hook (rt : Runtime) (s : State) (info : PeasPluginInfo) :
    (peas_plugin_loader_python_load rt s info).2.trace.filter is_hook_call =
      s.trace.filter is_hook_call := by
  cases hl : g_hash_table_lookup s.loaded_plugins info with
  | some pyinfo => rw [load_of_loaded rt s info (by simp [hl])]
  | none =>
    obtain ⟨sp, tr, e, hframe, htr, -⟩ := add_module_path_frame (PyGILState_Ensure s) (rt.module_dir info)
    unfold peas_plugin_loader_python_load
    simp only [hl, Option.isSome_none, Bool.false_eq_true, if_false]
    cases hadd : peas_plugin_loader_python_add_module_path (PyGILState_Ensure s)
        (rt.module_dir info) with
    | mk ok s2 =>
      rw [hadd] at hframe
      simp only at hframe
      subst hframe
      have htr2 : tr.filter is_hook_call = s.trace.filter is_hook_call := htr
      cases hx : s.exit_at (tr.length + 1) <;> cases ok with
      | false =>
        simp only [g_warning, PyErr_Occurred, PyErr_Print, PyGILState_Release, PyGILState_Ensure]
        split <;>
          simp [List.filter_append, is_hook_call, htr2, printed_event, hx, PyGILState_Ensure]
      | true =>
        simp only [PyImport_ImportModuleEx]
        split <;> rename_i heq <;> split at heq <;>
          simp only [Prod.mk.injEq] at heq <;> obtain ⟨-, hs3⟩ := heq <;> subst hs3 <;>
          simp [PyErr_Print, PyGILState_Release, PyGILState_Ensure, add_python_info,
            List.filter_append, is_hook_call, htr2, printed_event, hx]

theorem remove_of_not_loaded (s : State) (info : PeasPluginInfo)
    (h : g_hash_table_lookup s.loaded_plugins info = none) : g_hash_table_remove s info = s := by
  simp [g_hash_table_remove, h]

/-- C7. From a registry that holds exactly one entry, for the descriptor, the
unload of that descriptor leaves the registry empty and calls the
`all_plugins_unloaded` method of the hooks object exactly once; a load that
follows, of any descriptor, calls no hook. -/
theorem unload_last (rt : Runtime) (s : State) (info : PeasPluginInfo) (pyinfo : PythonInfo)
    (h : s.loaded_plugins.entries = [(info, pyinfo)]) :
    (peas_plugin_loader_python_unload rt s info).loaded_plugins.entries = [] ∧
    (peas_plugin_loader_python_unload rt s info).trace.filter is_hook_call =
      s.trace.filter is_hook_call ++ [Event.call_method s.hooks "all_plugins_unloaded"] ∧
    ∀ info2,
      (peas_plugin_loader_python_load rt (peas_plugin_loader_python_unload rt s info) info2).2.trace.filter
          is_hook_call =
        (peas_plugin_loader_python_unload rt s info).trace.filter is_hook_call := by
  have hl : g_hash_table_lookup s.loaded_plugins info = some pyinfo := by
    simp [g_hash_table_lookup, h]
  have hrem : (g_hash_table_remove s info).loaded_plugins.entries = [] ∧
      (g_hash_table_remove s info).trace = s.trace ∧
      (g_hash_table_remove s info).hooks = s.hooks := by
    simp [g_hash_table_remove, hl, destroy_python_info, PyGILState_Ensure, PyGILState_Release,
      GHashTable.erase, h]
  have hsize : g_hash_table_size (g_hash_table_remove s info).loaded_plugins = 0 := by
    simp [g_hash_table_size, hrem.1]
  have hun : peas_plugin_loader_python_unload rt s info =
      internal_python_hook rt (g_hash_table_remove s info) "all_plugins_unloaded" := by
    simp [peas_plugin_loader_python_unload, hsize]
  obtain ⟨hreg, htr, -⟩ :=
    internal_python_hook_effect rt (g_hash_table_remove s info) "all_plugins_unloaded"
  refine ⟨?_, ?_, fun info2 => load_no_hook rt _ info2⟩
  · rw [hun, hreg, hrem.1]
  · rw [hun, htr, hrem.2.1, hrem.2.2]

theorem unload_last_witness :
    (peas_plugin_loader_python_unload sample_runtime (sample_state (registry_of 7 2)) 7).loaded_plugins.entries
      = [] ∧
    (peas_plugin_loader_python_unload sample_runtime (sample_state (registry_of 7 2)) 7).trace.filter
        is_hook_call =
      (sample_state (registry_of 7 2)).trace.filter is_hook_call ++
        [Event.call_method (sample_state (registry_of 7 2)).hooks "all_plugins_unloaded"] ∧
    ∀ info2,
      (peas_plugin_loader_python_load sample_runtime
        (peas_plugin_loader_python_unload sample_runtime (sample_state (registry_of 7 2)) 7)
        info2).2.trace.filter is_hook_call =
      (peas_plugin_loader_python_unload sample_runtime
        (sample_state (registry_of 7 2)) 7).trace.filter is_hook_call :=
  unload_last sample_runtime (sample_state (registry_of 7 2)) 7 { module := 2 } rfl

/-- C8, as stated, fails: with an empty registry the unload of a descriptor
that was never loaded calls the `all_plugins_unloaded` hook. -/
theorem unload_never_loaded_calls_hook :
    g_hash_table_lookup (sample_state GHashTable.empty).loaded_plugins 8 = none ∧
    (sample_state GHashTable.empty).trace = [] ∧
    (peas_plugin_loader_python_unload sample_runtime (sample_state GHashTable.empty) 8).trace =
      [Event.call_method (some 900) "all_plugins_unloaded"] := by
  exact ⟨rfl, rfl, rfl⟩

/-- C8, amended. The unload of a descriptor without an entry leaves the
registry unchanged; when the registry holds entries the whole state is
unchanged and no hook is called, and when the registry is empty the
`all_plugins_unloaded` method of the hooks object is called once. -/
theorem unload_of_not_loaded (rt : Runtime) (s : State) (info : PeasPluginInfo)
    (h : g_hash_table_lookup s.loaded_plugins info = none) :
    (peas_plugin_loader_python_unload rt s info).loaded_plugins = s.loaded_plugins ∧
    (g_hash_table_size s.loaded_plugins ≠ 0 → peas_plugin_loader_python_unload rt s info = s) ∧
    (g_hash_table_size s.loaded_plugins = 0 →
      (peas_plugin_loader_python_unload rt s info).trace.filter is_hook_call =
        s.trace.filter is_hook_call ++ [Event.call_method s.hooks "all_plugins_unloaded"]) := by
  unfold peas_plugin_loader_python_unload
  rw [remove_of_not_loaded s info h]
  by_cases hsize : g_hash_table_size s.loaded_plugins = 0
  · simp only [hsize, if_true, ne_eq, not_true_eq_false, false_implies, true_implies, true_and]
    exact ⟨(internal_python_hook_effect rt s _).1, (internal_python_hook_effect rt s _).2.1⟩
  · simp [hsize]

theorem unload_of_not_loaded_witness :
    g_hash_table_lookup (sample_state (registry_of 7 2)).loaded_plugins 8 = none ∧
    g_hash_table_size (sample_state (registry_of 7 2)).loaded_plugins ≠ 0 ∧
    peas_plugin_loader_python_unload sample_runtime (sample_state (registry_of 7 2)) 8 =
      sample_state (registry_of 7 2) :=
  ⟨rfl, by decide,
    (unload_of_not_loaded sample_runtime (sample_state (registry_of 7 2)) 8 rfl).2.1 (by decide)⟩

/-! ## The execution lock -/

theorem gc_while_lock (rt : Runtime) (fuel : Nat) (s s1 : State)
    (h : gc_while rt fuel s = some s1) :
    s1.gil_depth = s.gil_depth ∧ s1.gil_ensured = s.gil_ensured ∧
    s1.gil_released = s.gil_released := by
  induction fuel generalizing s with
  | zero => simp [gc_while] at h
  | succ n ih =>
    unfold gc_while at h
    simp only [PyGC_Collect] at h
    by_cases hz : rt.gc_found s.gc_runs = 0
    · simp only [hz, ne_eq, not_true_eq_false, if_false, Option.some.injEq] at h
      subst h
      simp
    · simp only [hz, ne_eq, not_false_eq_true, if_true] at h
      have := ih _ h
      simpa using this

theorem gc_while_terminates (rt : Runtime) (n : Nat) (s : State)
    (h : rt.gc_found (s.gc_runs + n) = 0) : ∃ s1, gc_while rt (n + 1) s = some s1 := by
  induction n generalizing s with
  | zero =>
    have h0 : rt.gc_found s.gc_runs = 0 := by simpa using h
    simp [gc_while, PyGC_Collect, h0]
  | succ n ih =>
    unfold gc_while
    simp only [PyGC_Collect]
    by_cases hz : rt.gc_found s.gc_runs = 0
    · simp [hz]
    · rw [if_pos hz]
      apply ih
      simp only
      rw [← h]
      congr 1
      omega

theorem load_lock (rt : Runtime) (s : State) (info : PeasPluginInfo) :
    lock_balanced s (peas_plugin_loader_python_load rt s info).2 := by
  cases hl : g_hash_table_lookup s.loaded_plugins info with
  | some pyinfo =>
    rw [load_of_loaded rt s info (by simp [hl])]
    exact ⟨rfl, 0, rfl, rfl⟩
  | none =>
    obtain ⟨sp, tr, e, hframe, -, hpathok⟩ := add_module_path_frame (PyGILState_Ensure s) (rt.module_dir info)
    unfold peas_plugin_loader_python_load
    simp only [hl, Option.isSome_none, Bool.false_eq_true, if_false]
    cases hadd : peas_plugin_loader_python_add_module_path (PyGILState_Ensure s)
        (rt.module_dir info) with
    | mk ok s2 =>
      rw [hadd] at hframe
      simp only at hframe
      subst hframe
      cases ok with
      | false =>
        simp only [g_warning, PyErr_Occurred, PyErr_Print, PyGILState_Release, PyGILState_Ensure]
        split <;> exact ⟨by simp, 1, rfl, rfl⟩
      | true =>
        simp only [PyImport_ImportModuleEx]
        split <;> rename_i heq <;> split at heq <;>
          simp only [Prod.mk.injEq] at heq <;> obtain ⟨-, hs3⟩ := heq <;> subst hs3 <;>
          exact ⟨by simp [PyErr_Print, PyGILState_Release, PyGILState_Ensure, add_python_info],
            1, rfl, rfl⟩

theorem provides_extension_outcome (rt : Runtime) (s : State) (info : PeasPluginInfo)
    (exten_type : GType) (pyinfo : PythonInfo) (resolved : Option PyObject) (s2 : State)
    (hl : g_hash_table_lookup s.loaded_plugins info = some pyinfo)
    (hf : find_python_extension_type rt (PyGILState_Ensure s) info exten_type pyinfo.module =
      .ok (resolved, s2)) :
    peas_plugin_loader_python_provides_extension rt s info exten_type =
      .ok (resolved.isSome, PyGILState_Release s2) := by
  unfold peas_plugin_loader_python_provides_extension
  rw [hl]
  simp only
  rw [hf]

theorem provides_extension_inv (rt : Runtime) (s : State) (info : PeasPluginInfo)
    (exten_type : GType) (r : Bool) (s1 : State)
    (h : peas_plugin_loader_python_provides_extension rt s info exten_type = .ok (r, s1)) :
    ∃ pyinfo resolved s2, g_hash_table_lookup s.loaded_plugins info = some pyinfo ∧
      find_python_extension_type rt (PyGILState_Ensure s) info exten_type pyinfo.module =
        .ok (resolved, s2) := by
  cases hl : g_hash_table_lookup s.loaded_plugins info with
  | none =>
    unfold peas_plugin_loader_python_provides_extension at h
    rw [hl] at h
    cases h
  | some pyinfo =>
    cases hf : find_python_extension_type rt (PyGILState_Ensure s) info exten_type pyinfo.module with
    | error e =>
      unfold peas_plugin_loader_python_provides_extension at h
      rw [hl] at h
      simp only at h
      rw [hf] at h
      cases h
    | ok res =>
      obtain ⟨resolved, s2⟩ := res
      exact ⟨pyinfo, resolved, s2, rfl, hf⟩

/-- C9. Each of load, provides_extension, create_extension, run_gc_protected,
destroy_python_info and internal_python_hook returns with the lock as it found
it: the same hold depth, and as many releases as acquisitions. Load,
destroy_python_info and internal_python_hook always return; provides_extension
and create_extension return when the descriptor has an entry and the `pytype`
attribute of the interface is present; run_gc_protected returns when some pass
of the collector finds nothing. -/
theorem lock_released_on_every_exit (rt : Runtime) :
    (∀ s info, lock_balanced s (peas_plugin_loader_python_load rt s info).2) ∧
    (∀ s info exten_type r s1,
      peas_plugin_loader_python_provides_extension rt s info exten_type = .ok (r, s1) →
      lock_balanced s s1) ∧
    (∀ s info exten_type pyinfo wrapped,
      g_hash_table_lookup s.loaded_plugins info = some pyinfo →
      rt.pytype exten_type = some wrapped →
      ∃ r s1, peas_plugin_loader_python_provides_extension rt s info exten_type = .ok (r, s1)) ∧
    (∀ s info exten_type parameters r s1,
      peas_plugin_loader_python_create_extension rt s info exten_type parameters = .ok (r, s1) →
      lock_balanced s s1) ∧
    (∀ s info exten_type parameters pyinfo wrapped,
      g_hash_table_lookup s.loaded_plugins info = some pyinfo →
      rt.pytype exten_type = some wrapped →
      ∃ r s1, peas_plugin_loader_python_create_extension rt s info exten_type parameters =
        .ok (r, s1)) ∧
    (∀ fuel s s1, run_gc_protected rt fuel s = some s1 → lock_balanced s s1) ∧
    (∀ s n, rt.gc_found (s.gc_runs + n) = 0 → ∃ s1, run_gc_protected rt (n + 1) s = some s1) ∧
    (∀ s pyinfo, lock_balanced s (destroy_python_info s pyinfo)) ∧
    (∀ s name, lock_balanced s (internal_python_hook rt s name)) := by
  refine ⟨load_lock rt, ?_, ?_, ?_, ?_, ?_, ?_, ?_, ?_⟩
  · intro s info exten_type r s1 h
    obtain ⟨pyinfo, resolved, s2, hl, hf⟩ := provides_extension_inv rt s info exten_type r s1 h
    rw [provides_extension_outcome rt s info exten_type pyinfo resolved s2 hl hf] at h
    obtain ⟨e, tr, hs2⟩ := find_python_extension_type_frame rt _ info exten_type _ _ _ hf
    simp only [Except.ok.injEq, Prod.mk.injEq] at h
    rw [← h.2, hs2]
    exact ⟨by simp [PyGILState_Release, PyGILState_Ensure], 1, rfl, rfl⟩
  · intro s info exten_type pyinfo wrapped hl hp
    exact ⟨_, _, provides_extension_outcome rt s info exten_type pyinfo _ _ hl
      (find_python_extension_type_of_present rt (PyGILState_Ensure s) info exten_type
        pyinfo.module wrapped hp)⟩
  · intro s info exten_type parameters r s1 h
    obtain ⟨pyinfo, resolved, s2, hl, hf⟩ :=
      create_extension_inv rt s info exten_type parameters r s1 h
    obtain ⟨res, s3, hc, hd, hen, hrel, -⟩ :=
      create_extension_outcome rt s info exten_type parameters pyinfo resolved s2 hl hf
    rw [h] at hc
    simp only [Except.ok.injEq, Prod.mk.injEq] at hc
    rw [hc.2]
    exact ⟨hd, 1, hen, hrel⟩
  · intro s info exten_type parameters pyinfo wrapped hl hp
    obtain ⟨res, s3, hc, -⟩ :=
      create_extension_outcome rt s info exten_type parameters pyinfo _ _ hl
        (find_python_extension_type_of_present rt (PyGILState_Ensure s) info exten_type
          pyinfo.module wrapped hp)
    exact ⟨res, s3, hc⟩
  · intro fuel s s1 h
    unfold run_gc_protected at h
    cases hg : gc_while rt fuel (PyGILState_Ensure s) with
    | none => rw [hg] at h; cases h
    | some s2 =>
      rw [hg] at h
      simp only [Option.some.injEq] at h
      obtain ⟨hd, hen, hrel⟩ := gc_while_lock rt fuel _ s2 hg
      rw [← h]
      refine ⟨?_, 1, ?_, ?_⟩
      · simp [PyGILState_Release, hd, PyGILState_Ensure]
      · simp [PyGILState_Release, hen, PyGILState_Ensure]
      · simp [PyGILState_Release, hrel, PyGILState_Ensure]
  · intro s n h
    obtain ⟨s2, hg⟩ := gc_while_terminates rt n (PyGILState_Ensure s) h
    exact ⟨PyGILState_Release s2, by simp [run_gc_protected, hg]⟩
  · intro s pyinfo
    exact ⟨by simp [destroy_python_info, PyGILState_Release, PyGILState_Ensure], 1, rfl, rfl⟩
  · intro s name
    obtain ⟨-, -, hd, hen, hrel⟩ := internal_python_hook_effect rt s name
    exact ⟨hd, 1, hen, hrel⟩

theorem lock_released_on_every_exit_witness :
    lock_balanced (sample_state (registry_of 7 2)) sample_after_call ∧
    lock_balanced (sample_state (registry_of 7 2)) sample_created_once ∧
    (∃ s1, run_gc_protected sample_runtime 1 (sample_state (registry_of 7 2)) = some s1) :=
  ⟨(lock_released_on_every_exit sample_runtime).2.1 (sample_state (registry_of 7 2)) 7 10 true
      sample_after_call rfl,
   (lock_released_on_every_exit sample_runtime).2.2.2.1 (sample_state (registry_of 7 2)) 7 10 []
      (some 0) sample_created_once rfl,
   (lock_released_on_every_exit sample_runtime).2.2.2.2.2.2.1 (sample_state (registry_of 7 2)) 0
      rfl⟩

/-! ## The module search path -/

/-- C10, as stated, fails: the directory `/plugins/undecodable` does not occur
in `sys.path`, the interpreter cannot make a string object of it, and
`peas_plugin_loader_python_add_module_path` reports failure and leaves the list
as it was instead of putting the directory in front. -/
theorem add_module_path_unconvertible_directory :
    sample_unconvertible.sys_path = some ["/usr/lib/python"] ∧
    "/plugins/undecodable" ∉ ["/usr/lib/python"] ∧
    peas_plugin_loader_python_add_module_path sample_unconvertible (some "/plugins/undecodable") =
      (false, { sample_unconvertible with err_occurred := true }) ∧
    (peas_plugin_loader_python_add_module_path sample_unconvertible
      (some "/plugins/undecodable")).2.sys_path = some ["/usr/lib/python"] :=
  ⟨rfl, by decide, rfl, rfl⟩

/-- C10, amended. With `sys.path` the list `L` and a directory `p`: while the
calls of the interpreter succeed (the conversion of `p` to a string object, the
membership test, the insertion), when `p` occurs in `L` the state is unchanged
and the result is success, and otherwise the result is success and `sys.path`
becomes `p` followed by `L`; when one of these calls fails, the result is
failure and `sys.path` is still `L`; and in every case a second application
with the same `p` leaves `sys.path` as the first one left it. -/
theorem add_module_path_idempotent_on_success (s : State) (L : List String) (p : String)
    (h : s.sys_path = some L) :
    (s.py_string_fails p = false → s.contains_raises L p = false → p ∈ L →
      peas_plugin_loader_python_add_module_path s (some p) = (true, s)) ∧
    (s.py_string_fails p = false → s.contains_raises L p = false → p ∉ L →
      s.insert_fails L p = false →
      peas_plugin_loader_python_add_module_path s (some p) =
        (true, { s with sys_path := some (p :: L) })) ∧
    ((s.py_string_fails p = true ∨ s.contains_raises L p = true ∨
        (p ∉ L ∧ s.insert_fails L p = true)) →
      (peas_plugin_loader_python_add_module_path s (some p)).1 = false ∧
      (peas_plugin_loader_python_add_module_path s (some p)).2.sys_path = some L) ∧
    (peas_plugin_loader_python_add_module_path
        (peas_plugin_loader_python_add_module_path s (some p)).2 (some p)).2.sys_path =
      (peas_plugin_loader_python_add_module_path s (some p)).2.sys_path := by
  have hin : ∀ (s0 : State) (L0 : List String), s0.sys_path = some L0 →
      s0.py_string_fails p = false → s0.contains_raises L0 p = false → p ∈ L0 →
      peas_plugin_loader_python_add_module_path s0 (some p) = (true, s0) := by
    intro s0 L0 h0 hstr hraise hmem
    simp [peas_plugin_loader_python_add_module_path, h0, PySequence_Contains, hstr, hraise, hmem]
  have hout : s.py_string_fails p = false → s.contains_raises L p = false → p ∉ L →
      s.insert_fails L p = false →
      peas_plugin_loader_python_add_module_path s (some p) =
        (true, { s with sys_path := some (p :: L) }) := by
    intro hstr hraise hmem hins
    simp [peas_plugin_loader_python_add_module_path, h, PySequence_Contains, hstr, hraise, hmem,
      PyList_Insert_front, hins]
  have hkeep : ∀ (s0 : State) (L0 : List String), s0.sys_path = some L0 →
      (p ∈ L0 ∨ s0.py_string_fails p = true ∨ s0.contains_raises L0 p = true ∨
        s0.insert_fails L0 p = true) →
      (peas_plugin_loader_python_add_module_path s0 (some p)).2.sys_path = some L0 := by
    intro s0 L0 h0 hc
    unfold peas_plugin_loader_python_add_module_path
    simp only [h0]
    by_cases hstr : s0.py_string_fails p = true
    · simp [hstr, h0]
    · by_cases hraise : s0.contains_raises L0 p = true
      · simp [hstr, PySequence_Contains, hraise, h0]
      · by_cases hmem : p ∈ L0
        · simp [hstr, PySequence_Contains, hraise, hmem, h0]
        · have hins : s0.insert_fails L0 p = true := by
            rcases hc with hc | hc | hc | hc
            · exact absurd hc hmem
            · exact absurd hc hstr
            · exact absurd hc hraise
            · exact hc
          simp [hstr, PySequence_Contains, hraise, hmem, PyList_Insert_front, hins]
  have hfalse : (s.py_string_fails p = true ∨ s.contains_raises L p = true ∨
        (p ∉ L ∧ s.insert_fails L p = true)) →
      (peas_plugin_loader_python_add_module_path s (some p)).1 = false := by
    intro hc
    unfold peas_plugin_loader_python_add_module_path
    simp only [h]
    by_cases hstr : s.py_string_fails p = true
    · simp [hstr]
    · by_cases hraise : s.contains_raises L p = true
      · simp [hstr, PySequence_Contains, hraise]
      · rcases hc with hc | hc | ⟨hmem, hins⟩
        · exact absurd hc hstr
        · exact absurd hc hraise
        · simp [hstr, PySequence_Contains, hraise, hmem, PyList_Insert_front, hins]
  refine ⟨hin s L h, hout, ?_, ?_⟩
  · intro hc
    refine ⟨hfalse hc, hkeep s L h ?_⟩
    rcases hc with hc | hc | ⟨-, hc⟩
    · exact Or.inr (Or.inl hc)
    · exact Or.inr (Or.inr (Or.inl hc))
    · exact Or.inr (Or.inr (Or.inr hc))
  · by_cases hc : p ∈ L ∨ s.py_string_fails p = true ∨ s.contains_raises L p = true ∨
        s.insert_fails L p = true
    · have h1 := hkeep s L h hc
      obtain ⟨sp, tr, e, hframe, -, -⟩ := add_module_path_frame s (some p)
      have hc2 : p ∈ L ∨
          (peas_plugin_loader_python_add_module_path s (some p)).2.py_string_fails p = true ∨
          (peas_plugin_loader_python_add_module_path s (some p)).2.contains_raises L p = true ∨
          (peas_plugin_loader_python_add_module_path s (some p)).2.insert_fails L p = true := by
        rw [hframe]
        exact hc
      rw [hkeep _ L h1 hc2, h1]
    · simp only [not_or, Bool.not_eq_true] at hc
      obtain ⟨hmem, hstr, hraise, hins⟩ := hc
      rw [hout hstr hraise hmem hins]
      exact hkeep _ (p :: L) rfl (Or.inl (List.mem_cons_self p L))

theorem add_module_path_idempotent_on_success_witness :
    (sample_state GHashTable.empty).sys_path = some ["/usr/lib/python"] ∧
    "/plugins/sample" ∉ ["/usr/lib/python"] ∧
    peas_plugin_loader_python_add_module_path (sample_state GHashTable.empty)
        (some "/plugins/sample") =
      (true, { sample_state GHashTable.empty with
               sys_path := some ["/plugins/sample", "/usr/lib/python"] }) :=
  ⟨rfl, by decide,
    (add_module_path_idempotent_on_success (sample_state GHashTable.empty) ["/usr/lib/python"]
      "/plugins/sample" rfl).2.1 rfl rfl (by decide) rfl⟩

/-! ## Frames of the start -/

theorem same_loader_refl (s : State) : same_loader s s := ⟨_, _, _, _, _, rfl⟩

theorem same_loader_trans {s s1 s2 : State} (h1 : same_loader s s1) (h2 : same_loader s1 s2) :
    same_loader s s2 := by
  obtain ⟨e, tr, sp, a, h, rfl⟩ := h1
  obtain ⟨e2, tr2, sp2, a2, h2, rfl⟩ := h2
  exact ⟨_, _, _, _, _, rfl⟩

theorem same_loader_warning (msg : String) (s : State) : same_loader s (g_warning msg s) :=
  ⟨_, _, _, _, _, rfl⟩

theorem same_loader_err (s : State) (e : Bool) : same_loader s { s with err_occurred := e } :=
  ⟨_, _, _, _, _, rfl⟩

theorem same_loader_import (answer : Option PyObject) (name : String) (s : State) :
    same_loader s (PyImport_ImportModule answer name s).2 := by
  unfold PyImport_ImportModule
  cases answer <;> exact ⟨_, _, _, _, _, rfl⟩

theorem initialize_bootstrap_frame (cfg : Startup) (s : State) :
    same_loader s (initialize_bootstrap cfg s).2 := by
  unfold initialize_bootstrap
  have himp := same_loader_import cfg.builtins_module
    (if cfg.PY_VERSION_HEX < 0x03000000 then "__builtin__" else "builtins") s
  revert himp
  generalize PyImport_ImportModule cfg.builtins_module
    (if cfg.PY_VERSION_HEX < 0x03000000 then "__builtin__" else "builtins") s = r
  obtain ⟨m, s1⟩ := r
  intro himp
  cases m with
  | none => exact himp
  | some m =>
    simp only
    refine same_loader_trans himp ?_
    split_ifs <;> exact ⟨_, _, _, _, _, rfl⟩

theorem initialize_gettext_frame (cfg : Startup) (s : State) :
    same_loader s (initialize_gettext cfg s).2 := by
  unfold initialize_gettext
  have himp := same_loader_import cfg.gettext "gettext" s
  revert himp
  generalize PyImport_ImportModule cfg.gettext "gettext" s = r
  obtain ⟨m, s1⟩ := r
  intro himp
  cases m with
  | none => exact same_loader_trans himp (same_loader_warning _ _)
  | some m =>
    simp only
    refine same_loader_trans himp ?_
    split_ifs
    · exact ⟨_, _, _, _, _, rfl⟩
    · exact same_loader_trans ⟨_, _, _, _, _, rfl⟩ (initialize_bootstrap_frame cfg _)

theorem initialize_pygobject_frame (cfg : Startup) (s : State) :
    same_loader s (initialize_pygobject cfg s).2 := by
  unfold initialize_pygobject
  simp only
  split_ifs
  · exact ⟨_, _, _, _, _, rfl⟩
  · exact same_loader_trans ⟨_, _, _, _, _, rfl⟩ (initialize_gettext_frame cfg _)
  · exact same_loader_trans ⟨_, _, _, _, _, rfl⟩ (initialize_gettext_frame cfg _)

theorem set_program_name_frame (cfg : Startup) (s : State) :
    same_loader s (set_program_name cfg s) := by
  unfold set_program_name
  split_ifs <;> exact ⟨_, _, _, _, _, rfl⟩

theorem initialize_steps_frame (cfg : Startup) (s : State) :
    same_loader s (initialize_steps cfg s).2 := by
  unfold initialize_steps
  by_cases hv : version_mismatch cfg = true
  · rw [if_pos hv]
    exact same_loader_warning _ _
  · rw [if_neg hv]
    simp only
    refine same_loader_trans (set_program_name_frame cfg s) ?_
    obtain ⟨sp, tr, e, hframe, -, -⟩ :=
      add_module_path_frame (set_program_name cfg s) (some cfg.PEAS_PYEXECDIR)
    revert hframe
    generalize peas_plugin_loader_python_add_module_path (set_program_name cfg s)
      (some cfg.PEAS_PYEXECDIR) = r
    obtain ⟨ok, s2⟩ := r
    intro hframe
    simp only at hframe
    have h2 : same_loader (set_program_name cfg s) s2 := by
      rw [hframe]
      exact ⟨_, _, _, _, _, rfl⟩
    cases ok with
    | false => exact same_loader_trans h2 (same_loader_warning _ _)
    | true => exact same_loader_trans h2 (initialize_pygobject_frame cfg s2)

/-! ## The start of the interpreter -/

theorem initialize_steps_of_mismatch (cfg : Startup) (s : State)
    (h : version_mismatch cfg = true) :
    initialize_steps cfg s =
      (false, g_warning "Attempting to mix incompatible Python versions" s) := by
  simp [initialize_steps, h]

/-- C11, as stated, fails: a loader built against 3.4 accepts an interpreter
that reports the major version 4, and one built against 2.7 accepts an
interpreter that reports the major version 1. -/
theorem version_check_accepts_other_major :
    major_version ({ sample_startup with hexversion := 0x040000F0 }).PY_VERSION_HEX = 3 ∧
    major_version ({ sample_startup with hexversion := 0x040000F0 }).hexversion = 4 ∧
    version_mismatch { sample_startup with hexversion := 0x040000F0 } = false ∧
    ( peas_plugin_loader_python_initialize { sample_startup with hexversion := 0x040000F0 }
      (sample_host true)).1 = true ∧
    major_version
      ({ sample_startup with PY_VERSION_HEX := 0x020700F0, hexversion := 0x010502F0 }).hexversion
      = 1 ∧
    version_mismatch
      { sample_startup with PY_VERSION_HEX := 0x020700F0, hexversion := 0x010502F0 } = false := by
  refine ⟨by decide, by decide, by decide, by rfl, by decide, by decide⟩

/-- C11, amended. The version test passes exactly when the major version the
interpreter reports is on the same side of 3 as the major version the loader
is built against; between the major versions 2 and 3 that is equality of the
major versions. When the test does not pass, the start fails. -/
theorem version_check_iff (cfg : Startup) :
    (version_mismatch cfg = false ↔
      (major_version cfg.PY_VERSION_HEX < 3 ↔ major_version cfg.hexversion < 3)) ∧
    ((major_version cfg.PY_VERSION_HEX = 2 ∨ major_version cfg.PY_VERSION_HEX = 3) →
      (major_version cfg.hexversion = 2 ∨ major_version cfg.hexversion = 3) →
      (version_mismatch cfg = false ↔
        major_version cfg.hexversion = major_version cfg.PY_VERSION_HEX)) ∧
    (version_mismatch cfg = true →
      ∀ s, ( peas_plugin_loader_python_initialize cfg s).1 = false) := by
  refine ⟨?_, ?_, ?_⟩
  · unfold version_mismatch major_version
    split_ifs with h <;> simp only [decide_eq_false_iff_not] <;> omega
  · unfold version_mismatch major_version
    intro hb hr
    split_ifs with h <;> simp only [decide_eq_false_iff_not] <;> omega
  · intro h s
    unfold peas_plugin_loader_python_initialize
    simp only [initialize_steps_of_mismatch cfg _ h]
    split_ifs <;> rfl

theorem version_check_iff_witness :
    major_version sample_startup.PY_VERSION_HEX = 3 ∧
    major_version sample_startup.hexversion = 3 ∧
    version_mismatch sample_startup = false ∧
    version_mismatch { sample_startup with hexversion := 0x020700F0 } = true ∧
    ( peas_plugin_loader_python_initialize { sample_startup with hexversion := 0x020700F0 }
      (sample_host true)).1 = false :=
  ⟨by decide, by decide,
   ((version_check_iff sample_startup).2.1 (Or.inr (by decide)) (Or.inr (by decide))).2
      (by decide),
   by decide,
   (version_check_iff { sample_startup with hexversion := 0x020700F0 }).2.2 (by decide)
      (sample_host true)⟩

/-- C12, as stated, fails: when the loader has started the interpreter itself
and the version test then fails, the interpreter is left running, with the
handler of `SIGINT` replaced and the lock held. -/
theorem initialize_mismatch_leaves_runtime_started :
    version_mismatch { sample_startup with hexversion := 0x020700F0 } = true ∧
    (sample_host false).py_initialized = false ∧
    (sample_host false).sigint_default = true ∧
    (sample_host false).gil_depth = 0 ∧
    ( peas_plugin_loader_python_initialize { sample_startup with hexversion := 0x020700F0 }
      (sample_host false)).1 = false ∧
    ( peas_plugin_loader_python_initialize { sample_startup with hexversion := 0x020700F0 }
      (sample_host false)).2.py_initialized = true ∧
    ( peas_plugin_loader_python_initialize { sample_startup with hexversion := 0x020700F0 }
      (sample_host false)).2.sigint_default = false ∧
    ( peas_plugin_loader_python_initialize { sample_startup with hexversion := 0x020700F0 }
      (sample_host false)).2.gil_depth = 1 := by
  refine ⟨by decide, rfl, rfl, rfl, rfl, rfl, rfl, rfl⟩

/-- C12, amended. When the version test fails, the start of a new loader
returns failure with `init_failed` set, no hooks object and an empty registry,
and makes none of the later configuration steps. When it attached to a running
interpreter it leaves the interpreter as it found it, apart from printing and
clearing a pending error, with the lock given back; when it started the
interpreter itself, the interpreter stays running, marked
`must_finalize_python`, with the lock still held. -/
theorem initialize_version_mismatch (cfg : Startup) (s : State)
    (h : version_mismatch cfg = true) :
    ( peas_plugin_loader_python_initialize cfg (peas_plugin_loader_python_init s)).1 = false ∧
    ( peas_plugin_loader_python_initialize cfg (peas_plugin_loader_python_init s)).2.init_failed
      = true ∧
    ( peas_plugin_loader_python_initialize cfg (peas_plugin_loader_python_init s)).2.hooks = none ∧
    ( peas_plugin_loader_python_initialize cfg
      (peas_plugin_loader_python_init s)).2.loaded_plugins.entries = [] ∧
    ( peas_plugin_loader_python_initialize cfg
      (peas_plugin_loader_python_init s)).2.trace.filter is_config_step =
        s.trace.filter is_config_step ∧
    ( peas_plugin_loader_python_initialize cfg (peas_plugin_loader_python_init s)).2.argv0
      = s.argv0 ∧
    (s.py_initialized = true →
      ( peas_plugin_loader_python_initialize cfg (peas_plugin_loader_python_init s)).2 =
        { peas_plugin_loader_python_init s with
          init_failed := true,
          err_occurred := false,
          gil_ensured := s.gil_ensured + 1,
          gil_released := s.gil_released + 1,
          trace := ( peas_plugin_loader_python_initialize cfg
            (peas_plugin_loader_python_init s)).2.trace }) ∧
    (s.py_initialized = false →
      ( peas_plugin_loader_python_initialize cfg
        (peas_plugin_loader_python_init s)).2.py_initialized = true ∧
      ( peas_plugin_loader_python_initialize cfg
        (peas_plugin_loader_python_init s)).2.must_finalize_python = true ∧
      ( peas_plugin_loader_python_initialize cfg
        (peas_plugin_loader_python_init s)).2.gil_depth = s.gil_depth + 1 ∧
      ( peas_plugin_loader_python_initialize cfg
        (peas_plugin_loader_python_init s)).2.gil_released = s.gil_released ∧
      ( peas_plugin_loader_python_initialize cfg
        (peas_plugin_loader_python_init s)).2.sys_path = some cfg.default_path) := by
  unfold peas_plugin_loader_python_initialize
  simp only [initialize_steps_of_mismatch cfg _ h]
  cases hp : s.py_initialized <;> cases he : s.err_occurred <;> cases hs : s.sigint_default <;>
    simp [start_or_attach, peas_plugin_loader_python_init, Py_IsInitialized, hp, he, hs, PyGILState_Ensure,
      PyGILState_Release, PyErr_Occurred, PyErr_Print, g_warning, Py_InitializeEx,
      install_default_sigint, List.filter_append, is_config_step, GHashTable.empty] <;>
    (unfold printed_event; split_ifs <;> rfl)

theorem initialize_version_mismatch_witness :
    version_mismatch { sample_startup with hexversion := 0x020700F0 } = true ∧
    ( peas_plugin_loader_python_initialize { sample_startup with hexversion := 0x020700F0 }
      (peas_plugin_loader_python_init (sample_state GHashTable.empty))).1 = false ∧
    ( peas_plugin_loader_python_initialize { sample_startup with hexversion := 0x020700F0 }
      (peas_plugin_loader_python_init (sample_state GHashTable.empty))).2.init_failed = true :=
  ⟨by decide,
   (initialize_version_mismatch { sample_startup with hexversion := 0x020700F0 }
      (sample_state GHashTable.empty) (by decide)).1,
   (initialize_version_mismatch { sample_startup with hexversion := 0x020700F0 }
      (sample_state GHashTable.empty) (by decide)).2.1⟩

/-- C13, as stated, fails: the loader starts the interpreter itself, the import
of `gettext` fails, and the start returns failure with the lock still held by
the thread that started the interpreter. -/
theorem initialize_failure_keeps_lock_of_started_runtime :
    (sample_host false).py_initialized = false ∧
    (sample_host false).gil_depth = 0 ∧
    ( peas_plugin_loader_python_initialize { sample_startup with gettext := none }
      (sample_host false)).1 = false ∧
    ( peas_plugin_loader_python_initialize { sample_startup with gettext := none }
      (sample_host false)).2.gil_depth = 1 ∧
    ( peas_plugin_loader_python_initialize { sample_startup with gettext := none }
      (sample_host false)).2.gil_released = 0 ∧
    ( peas_plugin_loader_python_initialize { sample_startup with gettext := none }
      (sample_host false)).2.py_thread_state = none := by
  refine ⟨rfl, rfl, rfl, rfl, rfl, rfl⟩

/-- C13, amended. On every failure path of the start of a new loader: when the
loader attached to a running interpreter, the hold it took with
`PyGILState_Ensure` has been given back and the depth is the one on entry;
when the loader started the interpreter itself, nothing is given back, the
thread keeps the hold it has from starting the interpreter and the loader is
left marked `init_failed` and `must_finalize_python`, which is the state in
which `peas_plugin_loader_python_finalize` shuts the interpreter down without
taking the lock. -/
theorem initialize_failure_lock (cfg : Startup) (s : State)
    (h : ( peas_plugin_loader_python_initialize cfg (peas_plugin_loader_python_init s)).1 = false) :
    (s.py_initialized = true →
      lock_balanced s
        ( peas_plugin_loader_python_initialize cfg (peas_plugin_loader_python_init s)).2 ∧
      ( peas_plugin_loader_python_initialize cfg
        (peas_plugin_loader_python_init s)).2.gil_ensured = s.gil_ensured + 1) ∧
    (s.py_initialized = false →
      ( peas_plugin_loader_python_initialize cfg
        (peas_plugin_loader_python_init s)).2.gil_depth = s.gil_depth + 1 ∧
      ( peas_plugin_loader_python_initialize cfg
        (peas_plugin_loader_python_init s)).2.gil_ensured = s.gil_ensured ∧
      ( peas_plugin_loader_python_initialize cfg
        (peas_plugin_loader_python_init s)).2.gil_released = s.gil_released ∧
      ( peas_plugin_loader_python_initialize cfg
        (peas_plugin_loader_python_init s)).2.py_thread_state = none ∧
      ( peas_plugin_loader_python_initialize cfg
        (peas_plugin_loader_python_init s)).2.init_failed = true ∧
      ( peas_plugin_loader_python_initialize cfg
        (peas_plugin_loader_python_init s)).2.must_finalize_python = true) := by
  unfold peas_plugin_loader_python_initialize at h ⊢
  simp only at h ⊢
  generalize hs1 : start_or_attach cfg _ = s1 at h ⊢
  have hframe := initialize_steps_frame cfg s1
  revert h hframe
  generalize initialize_steps cfg s1 = r
  obtain ⟨ok, s2⟩ := r
  intro h hframe
  obtain ⟨e, tr, sp, a, hk, rfl⟩ := hframe
  subst hs1
  cases ok with
  | true =>
    simp only at h
    split_ifs at h
  | false =>
    cases hp : s.py_initialized <;> cases e <;> cases hs : s.sigint_default <;>
      simp [start_or_attach, peas_plugin_loader_python_init, Py_IsInitialized, hp, hs,
        PyGILState_Ensure, PyGILState_Release, PyErr_Occurred, PyErr_Print, g_warning,
        Py_InitializeEx, install_default_sigint, lock_balanced]

theorem initialize_failure_lock_witness :
    ( peas_plugin_loader_python_initialize { sample_startup with gettext := none }
      (peas_plugin_loader_python_init (sample_state GHashTable.empty))).1 = false ∧
    lock_balanced (sample_state GHashTable.empty)
      ( peas_plugin_loader_python_initialize { sample_startup with gettext := none }
        (peas_plugin_loader_python_init (sample_state GHashTable.empty))).2 :=
  ⟨rfl,
   ((initialize_failure_lock { sample_startup with gettext := none }
      (sample_state GHashTable.empty) rfl).1 rfl).1⟩

/-! ## Garbage collection -/

theorem gc_while_frame (rt : Runtime) (fuel : Nat) (s s1 : State)
    (h : gc_while rt fuel s = some s1) :
    ∃ tr, s1 = { s with gc_runs := s1.gc_runs, trace := s.trace ++ tr,
                        marker_seen := s1.marker_seen } ∧
      tr.filter is_shutdown = [] ∧ tr.filter is_idle_add = [] ∧ tr.filter is_hook_call = [] := by
  induction fuel generalizing s with
  | zero => simp [gc_while] at h
  | succ n ih =>
    unfold gc_while at h
    simp only [PyGC_Collect] at h
    by_cases hz : rt.gc_found s.gc_runs = 0
    · simp only [hz, ne_eq, not_true_eq_false, if_false, Option.some.injEq] at h
      subst h
      exact ⟨[Event.gc_collect 0], rfl, rfl, rfl, rfl⟩
    · simp only [hz, ne_eq, not_false_eq_true, if_true] at h
      obtain ⟨tr, hs1, h1, h2, h3⟩ := ih _ h
      refine ⟨Event.gc_collect (rt.gc_found s.gc_runs) :: tr, ?_, ?_, ?_, ?_⟩
      · rw [hs1]
        simp
      · simpa [List.filter_cons, is_shutdown] using h1
      · simpa [List.filter_cons, is_idle_add] using h2
      · simpa [List.filter_cons, is_hook_call] using h3

theorem run_gc_protected_frame (rt : Runtime) (fuel : Nat) (s s1 : State)
    (h : run_gc_protected rt fuel s = some s1) :
    ∃ tr, s1 = { s with gc_runs := s1.gc_runs, trace := s.trace ++ tr,
                        marker_seen := s1.marker_seen,
                        gil_ensured := s.gil_ensured + 1, gil_released := s.gil_released + 1 } ∧
      tr.filter is_shutdown = [] ∧ tr.filter is_idle_add = [] ∧ tr.filter is_hook_call = [] := by
  unfold run_gc_protected at h
  cases hg : gc_while rt fuel (PyGILState_Ensure s) with
  | none => rw [hg] at h; cases h
  | some s2 =>
    rw [hg] at h
    simp only [Option.some.injEq] at h
    obtain ⟨tr, hs2, h1, h2, h3⟩ := gc_while_frame rt fuel _ s2 hg
    refine ⟨tr, ?_, h1, h2, h3⟩
    rw [← h, hs2]
    simp [PyGILState_Release, PyGILState_Ensure]

/-- The loop of the collector, given `fuel` passes, stops after the first pass
that finds nothing: with the passes before pass `n` finding something and pass
`n` finding nothing, it makes `n + 1` passes. -/
theorem gc_while_passes (rt : Runtime) (n : Nat) (s : State) (fuel : Nat)
    (hz : rt.gc_found (s.gc_runs + n) = 0)
    (hnz : ∀ m, m < n → rt.gc_found (s.gc_runs + m) ≠ 0) (hfuel : n < fuel) :
    ∃ s1, gc_while rt fuel s = some s1 ∧ s1.gc_runs = s.gc_runs + n + 1 ∧
      s1.trace.filter is_gc_pass =
        s.trace.filter is_gc_pass ++
          (List.range (n + 1)).map (fun m => Event.gc_collect (rt.gc_found (s.gc_runs + m))) := by
  induction n generalizing s fuel with
  | zero =>
    obtain ⟨k, rfl⟩ : ∃ k, fuel = k + 1 := ⟨fuel - 1, by omega⟩
    have h0 : rt.gc_found s.gc_runs = 0 := by simpa using hz
    refine ⟨{ s with gc_runs := s.gc_runs + 1, trace := s.trace ++ [Event.gc_collect 0],
                     marker_seen := s.marker_seen ++ [s.idle_gc] },
      by simp [gc_while, PyGC_Collect, h0], rfl, ?_⟩
    simp [List.filter_append, is_gc_pass, h0, List.range_succ]
  | succ n ih =>
    obtain ⟨k, rfl⟩ : ∃ k, fuel = k + 1 := ⟨fuel - 1, by omega⟩
    have h0 : rt.gc_found s.gc_runs ≠ 0 := by simpa using hnz 0 (by omega)
    obtain ⟨s1, hs1, hruns, htr⟩ := ih
      { s with gc_runs := s.gc_runs + 1,
               trace := s.trace ++ [Event.gc_collect (rt.gc_found s.gc_runs)],
               marker_seen := s.marker_seen ++ [s.idle_gc] } k
      (by simpa [Nat.add_assoc, Nat.add_comm 1 n] using hz)
      (fun m hm => by
        have := hnz (m + 1) (by omega)
        simpa [Nat.add_assoc, Nat.add_comm 1 m] using this)
      (by omega)
    refine ⟨s1, ?_, ?_, ?_⟩
    · unfold gc_while
      simp only [PyGC_Collect]
      rw [if_pos h0]
      exact hs1
    · rw [hruns]
      simp only
      omega
    · rw [htr]
      simp only [List.filter_append, List.append_assoc]
      congr 1
      rw [List.range_succ_eq_map (n + 1)]
      simp [is_gc_pass, List.filter_cons, Function.comp_def, Nat.add_assoc, Nat.add_comm 1]

/-- C15. `run_gc_protected` calls the collector until the first pass that finds
nothing: when the passes before pass `n` find something and pass `n` finds
nothing, it returns after exactly `n + 1` passes, given at least that many;
so it returns whenever some pass finds nothing, and when the first pass finds
nothing it makes exactly one pass. -/
theorem run_gc_protected_stops_at_first_zero (rt : Runtime) (s : State) :
    (∀ n fuel, rt.gc_found (s.gc_runs + n) = 0 →
      (∀ m, m < n → rt.gc_found (s.gc_runs + m) ≠ 0) → n < fuel →
      ∃ s1, run_gc_protected rt fuel s = some s1 ∧ s1.gc_runs = s.gc_runs + n + 1 ∧
        s1.trace.filter is_gc_pass =
          s.trace.filter is_gc_pass ++
            (List.range (n + 1)).map
              (fun m => Event.gc_collect (rt.gc_found (s.gc_runs + m)))) ∧
    (∀ n, rt.gc_found (s.gc_runs + n) = 0 → ∃ s1, run_gc_protected rt (n + 1) s = some s1) ∧
    (∀ fuel, rt.gc_found s.gc_runs = 0 →
      ∃ s1, run_gc_protected rt (fuel + 1) s = some s1 ∧ s1.gc_runs = s.gc_runs + 1 ∧
        s1.trace.filter is_gc_pass = s.trace.filter is_gc_pass ++ [Event.gc_collect 0]) := by
  have main : ∀ n fuel, rt.gc_found (s.gc_runs + n) = 0 →
      (∀ m, m < n → rt.gc_found (s.gc_runs + m) ≠ 0) → n < fuel →
      ∃ s1, run_gc_protected rt fuel s = some s1 ∧ s1.gc_runs = s.gc_runs + n + 1 ∧
        s1.trace.filter is_gc_pass =
          s.trace.filter is_gc_pass ++
            (List.range (n + 1)).map
              (fun m => Event.gc_collect (rt.gc_found (s.gc_runs + m))) := by
    intro n fuel hz hnz hfuel
    obtain ⟨s1, hs1, hruns, htr⟩ := gc_while_passes rt n (PyGILState_Ensure s) fuel hz hnz hfuel
    exact ⟨PyGILState_Release s1, by simp [run_gc_protected, hs1], hruns, htr⟩
  refine ⟨main, ?_, ?_⟩
  · intro n hz
    obtain ⟨s2, hg⟩ := gc_while_terminates rt n (PyGILState_Ensure s) hz
    exact ⟨PyGILState_Release s2, by simp [run_gc_protected, hg]⟩
  · intro fuel hz
    obtain ⟨s1, hs1, hruns, htr⟩ := main 0 (fuel + 1) (by simpa using hz)
      (fun m hm => by omega) (by omega)
    refine ⟨s1, hs1, hruns, ?_⟩
    rw [htr]
    simp [List.range_succ, hz]

theorem run_gc_protected_stops_at_first_zero_witness :
    sample_runtime.gc_found 0 = 0 ∧
    ∃ s1, run_gc_protected sample_runtime 5 (sample_state GHashTable.empty) = some s1 ∧
      s1.gc_runs = (sample_state GHashTable.empty).gc_runs + 1 ∧
      s1.trace.filter is_gc_pass =
        (sample_state GHashTable.empty).trace.filter is_gc_pass ++ [Event.gc_collect 0] :=
  ⟨rfl, (run_gc_protected_stops_at_first_zero sample_runtime
    (sample_state GHashTable.empty)).2.2 4 rfl⟩

/-! ## The end of the loader -/

theorem internal_python_hook_frame (rt : Runtime) (s : State) (name : String) :
    ∃ e tr, internal_python_hook rt s name =
        { s with err_occurred := e, trace := s.trace ++ tr,
                 gil_ensured := s.gil_ensured + 1, gil_released := s.gil_released + 1 } ∧
      e = false ∧ tr.filter is_shutdown = [] ∧ tr.filter is_idle_add = [] := by
  unfold internal_python_hook PyObject_CallMethod
  cases hh : s.hooks with
  | none =>
    refine ⟨false, [Event.call_method none name,
      printed_event s.exit_at (s.trace.length + 1)], ?_, rfl,
      by unfold printed_event; split_ifs <;> rfl, by unfold printed_event; split_ifs <;> rfl⟩
    simp [PyGILState_Ensure, PyGILState_Release, PyErr_Occurred, PyErr_Print, hh]
  | some recv =>
    cases hr : rt.hook_raises name with
    | true =>
      refine ⟨false, [Event.call_method (some recv) name,
        printed_event s.exit_at (s.trace.length + 1)], ?_, rfl,
        by unfold printed_event; split_ifs <;> rfl, by unfold printed_event; split_ifs <;> rfl⟩
      simp [PyGILState_Ensure, PyGILState_Release, PyErr_Occurred, PyErr_Print, hh, hr]
    | false =>
      cases he : s.err_occurred with
      | true =>
        refine ⟨false, [Event.call_method (some recv) name,
        printed_event s.exit_at (s.trace.length + 1)], ?_, rfl,
        by unfold printed_event; split_ifs <;> rfl, by unfold printed_event; split_ifs <;> rfl⟩
        simp [PyGILState_Ensure, PyGILState_Release, PyErr_Occurred, PyErr_Print, hh, hr, he]
      | false =>
        refine ⟨false, [Event.call_method (some recv) name], ?_, rfl, rfl, rfl⟩
        simp [PyGILState_Ensure, PyGILState_Release, PyErr_Occurred, PyErr_Print, hh, hr, he]

theorem gc_while_returns (rt : Runtime) (fuel : Nat) (s : State) (m : Nat) (hm : m < fuel)
    (hz : rt.gc_found (s.gc_runs + m) = 0) : ∃ s1, gc_while rt fuel s = some s1 := by
  induction fuel generalizing s m with
  | zero => omega
  | succ k ih =>
    unfold gc_while
    simp only [PyGC_Collect]
    by_cases h0 : rt.gc_found s.gc_runs = 0
    · simp [h0]
    · rw [if_pos h0]
      cases m with
      | zero => exact absurd (by simpa using hz) h0
      | succ m =>
        apply ih _ m (by omega)
        simp only
        rw [← hz]
        congr 1
        omega

theorem run_gc_protected_returns (rt : Runtime) (fuel : Nat)
    (hgc : ∀ k, ∃ m, m < fuel ∧ rt.gc_found (k + m) = 0) (s : State) :
    ∃ s1, run_gc_protected rt fuel s = some s1 := by
  obtain ⟨m, hm, hz⟩ := hgc s.gc_runs
  obtain ⟨s2, hg⟩ := gc_while_returns rt fuel (PyGILState_Ensure s) m hm hz
  exact ⟨PyGILState_Release s2, by simp [run_gc_protected, hg]⟩

/-- What one call of `peas_plugin_loader_python_garbage_collect` does to the
marker and to the main loop: with the marker at 0 it schedules one idle source
and records its id, with the marker set it schedules nothing. -/
theorem garbage_collect_effect (rt : Runtime) (fuel : Nat) (s s1 : State)
    (h : peas_plugin_loader_python_garbage_collect rt fuel s = some s1) :
    (s.idle_gc = 0 →
      s1.idle_gc = s.last_source_id + 1 ∧ s1.sources = s.sources ++ [s1.idle_gc] ∧
      s1.trace.filter is_idle_add = s.trace.filter is_idle_add ++ [Event.idle_add s1.idle_gc]) ∧
    (s.idle_gc ≠ 0 →
      s1.idle_gc = s.idle_gc ∧ s1.sources = s.sources ∧
      s1.trace.filter is_idle_add = s.trace.filter is_idle_add) := by
  unfold peas_plugin_loader_python_garbage_collect at h
  cases hg : run_gc_protected rt fuel s with
  | none => rw [hg] at h; cases h
  | some s2 =>
    rw [hg] at h
    obtain ⟨tr, hs2, -, ht, -⟩ := run_gc_protected_frame rt fuel s s2 hg
    have hidle : s2.idle_gc = s.idle_gc := by rw [hs2]
    have hsrc : s2.sources = s.sources := by rw [hs2]
    have hlast : s2.last_source_id = s.last_source_id := by rw [hs2]
    have htr : s2.trace.filter is_idle_add = s.trace.filter is_idle_add := by
      rw [hs2]
      simp [List.filter_append, ht]
    simp only [hidle] at h
    by_cases h0 : s.idle_gc = 0
    · simp only [h0, if_true, g_idle_add, Option.some.injEq] at h
      subst h
      simp [h0, hsrc, hlast, htr, List.filter_append, is_idle_add]
    · simp only [h0, if_false, Option.some.injEq] at h
      subst h
      simp [h0, hidle, hsrc, htr]

theorem garbage_collect_times_pending (rt : Runtime) (fuel : Nat) (n : Nat) (s s1 : State)
    (hidle : s.idle_gc ≠ 0) (h : garbage_collect_times rt fuel n s = some s1) :
    s1.idle_gc = s.idle_gc ∧ s1.sources = s.sources ∧
    s1.trace.filter is_idle_add = s.trace.filter is_idle_add := by
  induction n generalizing s with
  | zero =>
    simp only [garbage_collect_times, Option.some.injEq] at h
    subst h
    exact ⟨rfl, rfl, rfl⟩
  | succ n ih =>
    unfold garbage_collect_times at h
    cases hg : peas_plugin_loader_python_garbage_collect rt fuel s with
    | none => rw [hg] at h; cases h
    | some s2 =>
      rw [hg] at h
      obtain ⟨h1, h2, h3⟩ := (garbage_collect_effect rt fuel s s2 hg).2 hidle
      obtain ⟨i1, i2, i3⟩ := ih s2 (by rw [h1]; exact hidle) h
      exact ⟨by rw [i1, h1], by rw [i2, h2], by rw [i3, h3]⟩

theorem dispatch_idle_effect (rt : Runtime) (fuel : Nat) (s s1 : State) (id : Nat)
    (h : dispatch_idle rt fuel s id = some s1) :
    s1.idle_gc = 0 ∧ s1.sources = s.sources.erase id ∧
    s1.last_source_id = s.last_source_id ∧
    s1.trace.filter is_idle_add = s.trace.filter is_idle_add := by
  unfold dispatch_idle run_gc at h
  cases hg : run_gc_protected rt fuel s with
  | none => rw [hg] at h; cases h
  | some s2 =>
    rw [hg] at h
    obtain ⟨tr, hs2, -, ht, -⟩ := run_gc_protected_frame rt fuel s s2 hg
    simp only [Bool.false_eq_true, if_false, Option.some.injEq] at h
    subst h
    rw [hs2]
    simp [List.filter_append, ht]

/-- C16. Starting with no idle source pending, any number `n + 1` of calls of
`peas_plugin_loader_python_garbage_collect` in a row schedules exactly one
idle source in total: afterwards `idle_gc` is not 0 and is the id of the one
source pending. Once the main loop has dispatched that source, `idle_gc` is 0
and no source is pending, and the next call schedules exactly one new source.
The calls return when the collector finds nothing within `fuel` passes from
wherever it stands. -/
theorem garbage_collect_coalesces (rt : Runtime) (fuel : Nat) (s : State)
    (hidle : s.idle_gc = 0) (hsrc : s.sources = []) :
    (∀ n s1, garbage_collect_times rt fuel (n + 1) s = some s1 →
      s1.idle_gc ≠ 0 ∧ s1.sources = [s1.idle_gc] ∧
      s1.trace.filter is_idle_add = s.trace.filter is_idle_add ++ [Event.idle_add s1.idle_gc] ∧
      ∀ s2, dispatch_idle rt fuel s1 s1.idle_gc = some s2 →
        s2.idle_gc = 0 ∧ s2.sources = [] ∧
        s2.trace.filter is_idle_add = s1.trace.filter is_idle_add ∧
        ∀ s3, peas_plugin_loader_python_garbage_collect rt fuel s2 = some s3 →
          s3.idle_gc ≠ 0 ∧ s3.sources = [s3.idle_gc] ∧
          s3.trace.filter is_idle_add =
            s2.trace.filter is_idle_add ++ [Event.idle_add s3.idle_gc]) ∧
    ((∀ k, ∃ m, m < fuel ∧ rt.gc_found (k + m) = 0) →
      (∀ n st, ∃ s1, garbage_collect_times rt fuel n st = some s1) ∧
      (∀ st id, ∃ s1, dispatch_idle rt fuel st id = some s1)) := by
  constructor
  · intro n s1 h
    unfold garbage_collect_times at h
    cases hg : peas_plugin_loader_python_garbage_collect rt fuel s with
    | none => rw [hg] at h; cases h
    | some sa =>
      rw [hg] at h
      obtain ⟨a1, a2, a3⟩ := (garbage_collect_effect rt fuel s sa hg).1 hidle
      have ha0 : sa.idle_gc ≠ 0 := by rw [a1]; omega
      obtain ⟨b1, b2, b3⟩ := garbage_collect_times_pending rt fuel n sa s1 ha0 h
      have hs1src : s1.sources = [s1.idle_gc] := by rw [b2, a2, hsrc, b1]; rfl
      refine ⟨by rw [b1]; exact ha0, hs1src, by rw [b3, a3, b1], ?_⟩
      intro s2 hdisp
      obtain ⟨c1, c2, -, c4⟩ := dispatch_idle_effect rt fuel s1 s2 _ hdisp
      have hs2src : s2.sources = [] := by rw [c2, hs1src]; simp
      refine ⟨c1, hs2src, c4, ?_⟩
      intro s3 hnext
      obtain ⟨d1, d2, d3⟩ := (garbage_collect_effect rt fuel s2 s3 hnext).1 c1
      exact ⟨by rw [d1]; omega, by rw [d2, hs2src]; rfl, d3⟩
  · intro hgc
    have hone : ∀ st, ∃ s1, peas_plugin_loader_python_garbage_collect rt fuel st = some s1 := by
      intro st
      obtain ⟨s2, hg⟩ := run_gc_protected_returns rt fuel hgc st
      unfold peas_plugin_loader_python_garbage_collect
      rw [hg]
      simp only
      split_ifs <;> exact ⟨_, rfl⟩
    constructor
    · intro n
      induction n with
      | zero => exact fun st => ⟨st, rfl⟩
      | succ n ih =>
        intro st
        obtain ⟨s2, hg⟩ := hone st
        obtain ⟨s3, h3⟩ := ih s2
        exact ⟨s3, by simp [garbage_collect_times, hg, h3]⟩
    · intro st id
      obtain ⟨s2, hg⟩ := run_gc_protected_returns rt fuel hgc st
      exact ⟨{ s2 with idle_gc := 0, sources := s2.sources.erase id },
        by simp [dispatch_idle, run_gc, hg]⟩

theorem garbage_collect_coalesces_witness :
    (sample_state GHashTable.empty).idle_gc = 0 ∧ (sample_state GHashTable.empty).sources = [] ∧
    ∃ s1, garbage_collect_times sample_runtime 1 3 (sample_state GHashTable.empty) = some s1 ∧
      s1.idle_gc ≠ 0 ∧ s1.sources = [s1.idle_gc] ∧
      s1.trace.filter is_idle_add =
        (sample_state GHashTable.empty).trace.filter is_idle_add ++
          [Event.idle_add s1.idle_gc] := by
  refine ⟨rfl, rfl, ?_⟩
  obtain ⟨s1, h⟩ := ((garbage_collect_coalesces sample_runtime 1
    (sample_state GHashTable.empty) rfl rfl).2 (fun k => ⟨0, by decide, rfl⟩)).1 3
      (sample_state GHashTable.empty)
  obtain ⟨h1, h2, h3, -⟩ := (garbage_collect_coalesces sample_runtime 1
    (sample_state GHashTable.empty) rfl rfl).1 2 s1 h
  exact ⟨s1, h, h1, h2, h3⟩

theorem gc_while_marker (rt : Runtime) (fuel : Nat) (s s1 : State)
    (h : gc_while rt fuel s = some s1) :
    ∃ k, 1 ≤ k ∧ s1.gc_runs = s.gc_runs + k ∧ s1.idle_gc = s.idle_gc ∧
      s1.marker_seen = s.marker_seen ++ List.replicate k s.idle_gc := by
  induction fuel generalizing s with
  | zero => simp [gc_while] at h
  | succ fuel ih =>
    simp only [gc_while, PyGC_Collect] at h
    split at h
    · obtain ⟨k, hk, hruns, hidle, hseen⟩ := ih _ h
      refine ⟨k + 1, by omega, ?_, hidle, ?_⟩
      · rw [hruns]
        simp only
        omega
      · rw [hseen]
        simp [List.replicate_succ]
    · simp only [Option.some.injEq] at h
      subst h
      exact ⟨1, le_refl 1, rfl, rfl, rfl⟩

theorem run_gc_protected_marker (rt : Runtime) (fuel : Nat) (s s1 : State)
    (h : run_gc_protected rt fuel s = some s1) :
    ∃ k, 1 ≤ k ∧ s1.gc_runs = s.gc_runs + k ∧ s1.idle_gc = s.idle_gc ∧
      s1.marker_seen = s.marker_seen ++ List.replicate k s.idle_gc := by
  unfold run_gc_protected at h
  cases hg : gc_while rt fuel (PyGILState_Ensure s) with
  | none => rw [hg] at h; cases h
  | some s2 =>
    rw [hg] at h
    simp only [Option.some.injEq] at h
    subst h
    obtain ⟨k, hk, hruns, hidle, hseen⟩ := gc_while_marker rt fuel _ s2 hg
    exact ⟨k, hk, hruns, hidle, hseen⟩

/-- C18, as stated, fails: with the marker `idle_gc` at 3, the one pass of the
collector that `run_gc` makes finds the marker at 3, as `marker_seen` records;
the marker is 0 only in the state `run_gc` returns, after the collection. -/
theorem run_gc_marker_set_during_collection :
    sample_owned.idle_gc = 3 ∧
    sample_owned.marker_seen = [] ∧
    run_gc sample_runtime 1 sample_owned =
      some (false, { sample_owned with idle_gc := 0, gc_runs := 1, gil_ensured := 1,
                                       gil_released := 1, trace := [Event.gc_collect 0],
                                       marker_seen := [3] }) := by
  exact ⟨rfl, rfl, rfl⟩

/-- C18, amended. The deferred task `run_gc` runs the collection first and
clears its marker after it: the task makes at least one pass of the collector,
every pass it makes finds the marker `idle_gc` as it was when the task
started, and the state the task returns has the marker at 0; the flag returned
is `FALSE`. -/
theorem run_gc_clears_marker_after_collection (rt : Runtime) (fuel : Nat) (s : State)
    (keep : Bool) (s1 : State) (h : run_gc rt fuel s = some (keep, s1)) :
    keep = false ∧ s1.idle_gc = 0 ∧
    ∃ k, 1 ≤ k ∧ s1.gc_runs = s.gc_runs + k ∧
      s1.marker_seen = s.marker_seen ++ List.replicate k s.idle_gc := by
  unfold run_gc at h
  cases hg : run_gc_protected rt fuel s with
  | none => rw [hg] at h; cases h
  | some s2 =>
    rw [hg] at h
    simp only [Option.some.injEq, Prod.mk.injEq] at h
    obtain ⟨k, hk, hruns, -, hseen⟩ := run_gc_protected_marker rt fuel s s2 hg
    obtain ⟨hkeep, hs1⟩ := h
    subst hs1
    exact ⟨hkeep.symm, rfl, k, hk, hruns, hseen⟩

theorem run_gc_clears_marker_after_collection_witness :
    run_gc sample_runtime 1 sample_owned =
      some (false, { sample_owned with idle_gc := 0, gc_runs := 1, gil_ensured := 1,
                                       gil_released := 1, trace := [Event.gc_collect 0],
                                       marker_seen := [3] }) ∧
    ∃ k, 1 ≤ k ∧ 1 = sample_owned.gc_runs + k ∧
      [3] = sample_owned.marker_seen ++ List.replicate k sample_owned.idle_gc :=
  ⟨rfl,
    (run_gc_clears_marker_after_collection sample_runtime 1 sample_owned false
      { sample_owned with idle_gc := 0, gc_runs := 1, gil_ensured := 1,
                          gil_released := 1, trace := [Event.gc_collect 0],
                          marker_seen := [3] } rfl).2.2⟩

/-! ## The error indicator -/

theorem find_loop_drains (rt : Runtime) (wrapped : PyObject) (locals : List (PyObject × PyObject))
    (s : State) (h : s.err_occurred = false) :
    (find_loop rt wrapped locals s).2.err_occurred = false := by
  induction locals generalizing s with
  | nil => exact h
  | cons e rest ih =>
    obtain ⟨key, value⟩ := e
    unfold find_loop
    by_cases hty : rt.PyType_Check value = true
    · by_cases h1 : rt.PyObject_IsSubclass value wrapped = 1
      · simp [hty, h1, h]
      · by_cases h0 : rt.PyObject_IsSubclass value wrapped = 0
        · simp only [hty, h1, h0, Bool.not_true, Bool.false_eq_true, if_false]
          exact ih _ (by simp [h])
        · simp only [hty, h1, h0, Bool.not_true, Bool.false_eq_true, if_false]
          exact ih _ (by simp [PyErr_Print])
    · simp only [hty]
      exact ih _ h

theorem find_python_extension_type_drains (rt : Runtime) (s : State) (info : PeasPluginInfo)
    (exten_type : GType) (pymodule : PyObject) (r : Option PyObject) (s1 : State)
    (h : s.err_occurred = false)
    (hf : find_python_extension_type rt s info exten_type pymodule = .ok (r, s1)) :
    s1.err_occurred = false := by
  cases hp : rt.pytype exten_type with
  | none =>
    rw [find_python_extension_type_of_absent rt s info exten_type pymodule hp] at hf
    cases hf
  | some wrapped =>
    rw [find_python_extension_type_of_present rt s info exten_type pymodule wrapped hp] at hf
    by_cases hn : wrapped = Py_None
    · simp [hn] at hf
      rw [← hf.2]
      exact h
    · simp only [bne_iff_ne, ne_eq, hn, not_false_eq_true, if_true, Except.ok.injEq] at hf
      have := find_loop_drains rt wrapped (rt.module_dict pymodule) s h
      rw [hf] at this
      exact this

theorem load_drains (rt : Runtime) (s : State) (info : PeasPluginInfo)
    (h : s.err_occurred = false) :
    (peas_plugin_loader_python_load rt s info).2.err_occurred = false := by
  cases hl : g_hash_table_lookup s.loaded_plugins info with
  | some pyinfo =>
    rw [load_of_loaded rt s info (by simp [hl])]
    exact h
  | none =>
    obtain ⟨sp, tr, e, hframe, -, hpathok⟩ := add_module_path_frame (PyGILState_Ensure s) (rt.module_dir info)
    unfold peas_plugin_loader_python_load
    simp only [hl, Option.isSome_none, Bool.false_eq_true, if_false]
    cases hadd : peas_plugin_loader_python_add_module_path (PyGILState_Ensure s)
        (rt.module_dir info) with
    | mk ok s2 =>
      rw [hadd] at hframe
      simp only at hframe
      subst hframe
      cases ok with
      | false =>
        simp only [g_warning, PyErr_Occurred, PyErr_Print, PyGILState_Release, PyGILState_Ensure]
        cases e <;> simp
      | true =>
        have he : e = false := by
          rw [hpathok (by rw [hadd])]
          simpa [PyGILState_Ensure] using h
        subst he
        cases hfm : rt.find_module (sp.getD []) (rt.module_name info) <;>
          simp [PyImport_ImportModuleEx, hfm, PyErr_Print, PyGILState_Release, PyGILState_Ensure,
            add_python_info]

/-- With no error pending on entry, load, provides_extension, the call of a
hook and unload return with no error pending; create_extension does so on
every path but the one on which the resolved type maps to no native type. -/
theorem operations_drain_errors (rt : Runtime) (s : State) (h : s.err_occurred = false) :
    (∀ info, (peas_plugin_loader_python_load rt s info).2.err_occurred = false) ∧
    (∀ info exten_type r s1,
      peas_plugin_loader_python_provides_extension rt s info exten_type = .ok (r, s1) →
      s1.err_occurred = false) ∧
    (∀ name, (internal_python_hook rt s name).err_occurred = false) ∧
    (∀ info, (peas_plugin_loader_python_unload rt s info).err_occurred = false) ∧
    (∀ info exten_type parameters r s1 pyinfo resolved s2,
      peas_plugin_loader_python_create_extension rt s info exten_type parameters = .ok (r, s1) →
      g_hash_table_lookup s.loaded_plugins info = some pyinfo →
      find_python_extension_type rt (PyGILState_Ensure s) info exten_type pyinfo.module =
        .ok (resolved, s2) →
      (∀ pytype, resolved = some pytype → rt.pyg_type_from_object pytype ≠ G_TYPE_INVALID) →
      s1.err_occurred = false) := by
  have hhook : ∀ st name, (internal_python_hook rt st name).err_occurred = false := by
    intro st name
    obtain ⟨e, tr, hh, he, -, -⟩ := internal_python_hook_frame rt st name
    rw [hh, he]
  refine ⟨fun info => load_drains rt s info h, ?_, hhook s, ?_, ?_⟩
  · intro info exten_type r s1 hprov
    obtain ⟨pyinfo, resolved, s2, hl, hf⟩ := provides_extension_inv rt s info exten_type r s1 hprov
    rw [provides_extension_outcome rt s info exten_type pyinfo resolved s2 hl hf] at hprov
    simp only [Except.ok.injEq, Prod.mk.injEq] at hprov
    rw [← hprov.2]
    have he2 := find_python_extension_type_drains rt _ info exten_type _ _ _
      (by simpa [PyGILState_Ensure] using h) hf
    simpa [PyGILState_Release] using he2
  · intro info
    unfold peas_plugin_loader_python_unload
    dsimp only
    split_ifs
    · exact hhook _ _
    · unfold g_hash_table_remove
      cases g_hash_table_lookup s.loaded_plugins info with
      | none => exact h
      | some pyinfo => simpa [destroy_python_info, PyGILState_Ensure, PyGILState_Release] using h
  · intro info exten_type parameters r s1 pyinfo resolved s2 hc hl hf hvalid
    have he2 : s2.err_occurred = false :=
      find_python_extension_type_drains rt _ info exten_type _ _ _
        (by simpa [PyGILState_Ensure] using h) hf
    unfold peas_plugin_loader_python_create_extension at hc
    rw [hl] at hc
    simp only at hc
    rw [hf] at hc
    cases resolved with
    | none =>
      simp only [Except.ok.injEq, Prod.mk.injEq] at hc
      rw [← hc.2]
      simpa [PyGILState_Release] using he2
    | some pytype =>
      simp only [hvalid pytype rfl, if_false] at hc
      by_cases ha : rt.g_type_is_a (rt.pyg_type_from_object pytype) exten_type = true
      · simp only [ha, Bool.not_true, Bool.false_eq_true, if_false] at hc
        by_cases hcon : rt.constructs (rt.pyg_type_from_object pytype) parameters = true
        · simp only [g_object_newv, hcon, if_true, PyObject_SetAttrString] at hc
          by_cases hset : rt.set_plugin_info (rt.pyg_type_from_object pytype) = -1
          · simp only [hset, if_true, Except.ok.injEq, Prod.mk.injEq] at hc
            rw [← hc.2]
            simp [PyGILState_Release, Py_DECREF_wrapper, g_object_unref, g_warning,
              PyErr_Occurred, PyErr_Print, pygobject_new, g_object_ref, g_object_set_data]
          · simp only [hset, if_false, Except.ok.injEq, Prod.mk.injEq] at hc
            rw [← hc.2]
            simpa [PyGILState_Release, Py_DECREF_wrapper, g_object_unref,
              pygobject_new, g_object_ref, g_object_set_data] using he2
        · simp only [g_object_newv, hcon, Bool.false_eq_true, if_false, Except.ok.injEq,
            Prod.mk.injEq] at hc
          rw [← hc.2]
          simpa [PyGILState_Release] using he2
      · simp only [ha, Bool.not_false, if_true, Except.ok.injEq, Prod.mk.injEq] at hc
        rw [← hc.2]
        simpa [PyGILState_Release, g_warn_if_fail, g_warning, ha] using he2

/-- C17. On the path of create_extension on which the type that was resolved
maps to no native type (`the_type == G_TYPE_INVALID`), the function returns
`NULL` to the host with the error of the failed mapping still pending: that
path goes to `out` without `PyErr_Print`. -/
theorem create_extension_leaves_error_pending :
    (sample_state (registry_of 7 2)).err_occurred = false ∧
    peas_plugin_loader_python_create_extension sample_runtime_unmapped
        (sample_state (registry_of 7 2)) 7 10 [] =
      .ok (none, { sample_state (registry_of 7 2) with
                   gil_ensured := 1, gil_released := 1, err_occurred := true }) := by
  exact ⟨rfl, rfl⟩

end Peas
